/-
Verification of the property-rental management backend.

This file gives a shallow embedding, in Lean 4, of the backend's in-memory
stores and service operations (property CRUD and the property-history /
audit subsystem), translated from the TypeScript sources:

  * instances/property/propertyStore.ts            (PropertyStore)
  * instances/property/codigoSequencialStore.ts    (CodigoSequencialStore)
  * instances/propertyHistory/propertyHistoryStore.ts
  * instances/propertyHistory/propertyAuditStore.ts
  * services/property/propertyService.ts           (propertyCreate, propertyGet, propertyList)
  * services/property/propertyUpdateService.ts     (propertyUpdate)
  * services/propertyHistory/propertyHistoryService.ts
  * the Zod validation schemas and the constants modules.

Modelling conventions:
  * A JS `Map` is modelled as an association list `List (String × α)` whose
    `set` operation replaces in place or appends (`storeSet`), so that
    `Array.from(map.values())` is `storeValues` (insertion order).
  * ISO-8601 timestamps (`new Date().toISOString()`) are modelled by their
    epoch-millisecond value as an `Int`; `new Date(s)` comparisons between
    them become integer comparisons.  A date-only string `YYYY-MM-DD` is
    modelled by the millisecond value of its UTC midnight, and the service's
    `endDate.setHours(23, 59, 59, 999)` becomes `+ 86399999` (the server
    timezone is taken to be UTC).
  * JS numbers on property fields are modelled as `ℚ` (they are only
    range-checked and copied, never computed with).
  * `uuidv4()` and `new Date()` results are passed to each operation as
    explicit arguments (`uuid`, `now`, `dateStr`); claims about freshly
    generated UUIDs carry a freshness hypothesis.
  * `String.prototype.toLowerCase`/`toUpperCase` are modelled character-wise
    for ASCII and the Latin-1 letter block (the repertoire the validated
    fields can contain that the code compares).
  * JS `Array.prototype.sort` is stable; it is modelled by the stable
    `List.insertionSort`.
  * The spin-lock in `CodigoSequencialStore` is a no-op in this
    single-threaded model (the lock map is always free).
-/
import Mathlib

namespace PropertyApp

/-! ## JS string case mapping -/

/-- Model of `toLowerCase` on one character: ASCII `A`-`Z` and the Latin-1
letters `À`-`Þ` (except `×`) map down by 32, everything else is fixed. -/
def charLower (c : Char) : Char :=
  if ('A' ≤ c ∧ c ≤ 'Z') ∨ ('À' ≤ c ∧ c ≤ 'Þ' ∧ c ≠ '×') then Char.ofNat (c.toNat + 32) else c

/-- Model of `toUpperCase` on one character (inverse range of `charLower`). -/
def charUpper (c : Char) : Char :=
  if ('a' ≤ c ∧ c ≤ 'z') ∨ ('à' ≤ c ∧ c ≤ 'þ' ∧ c ≠ '÷') then Char.ofNat (c.toNat - 32) else c

/-- Model of `String.prototype.toLowerCase`. -/
def lowerStr (s : String) : String := ⟨s.data.map charLower⟩

/-- Model of `String.prototype.toUpperCase`. -/
def upperStr (s : String) : String := ⟨s.data.map charUpper⟩

/-! ## Association-list model of a JS `Map` -/

/-- A JS `Map` with string keys, as an association list in insertion order. -/
abbrev Store (α : Type) : Type := List (String × α)

/-- `map.get(k)`. -/
def storeGet {α : Type} (k : String) : Store α → Option α
  | [] => none
  | (k', v) :: rest => if k' = k then some v else storeGet k rest

/-- `map.set(k, v)`: replace in place, or append when the key is new. -/
def storeSet {α : Type} (k : String) (v : α) : Store α → Store α
  | [] => [(k, v)]
  | (k', v') :: rest => if k' = k then (k, v) :: rest else (k', v') :: storeSet k v rest

/-- `Array.from(map.values())` (insertion order). -/
def storeValues {α : Type} (l : Store α) : List α := l.map Prod.snd

/-- `map.has(k)`. -/
def storeHasKey {α : Type} (k : String) (l : Store α) : Bool :=
  (storeGet k l).isSome

/-! ## Data model (services/property/propertyTypes.ts etc.) -/

/-- `PropertyEntity` from services/property/propertyTypes.ts. -/
structure PropertyEntity where
  property_id : String
  codigo_propriedade : String
  tipo_propriedade : String
  endereco_completo : String
  cep : String
  bairro : String
  cidade : String
  estado : String
  area_total : ℚ
  quartos : Option Int
  banheiros : Option Int
  vagas_garagem : Int
  valor_aluguel : ℚ
  valor_condominio : Option ℚ
  valor_iptu : Option ℚ
  descricao : Option String
  status : String
  data_cadastro : Int
  usuario_cadastro : String
deriving DecidableEq, Repr

/-- `PropertyHistoryChangeRecord` from propertyHistoryTypes.ts. -/
structure PropertyHistoryChangeRecord where
  change_id : String
  property_id : String
  change_date : Int
  user_responsible : String
  field_modified : String
  previous_value : Option String
  new_value : String
  change_reason : String
  property_status : String
  change_type : String
deriving DecidableEq, Repr

/-- `PropertyLifecycleEventRecord` from propertyHistoryTypes.ts. -/
structure PropertyLifecycleEventRecord where
  event_id : String
  property_id : String
  event_type : String
  event_date : Int
  event_description : String
  related_contract_id : Option String
  related_tenant_id : Option String
  event_impact : String
deriving DecidableEq, Repr

/-- The validated data of `historyQuerySchema` (propertyHistoryValidation.ts):
optional dates are carried as the epoch milliseconds of their UTC midnight. -/
structure HistoryQueryParams where
  property_id : String
  start_date : Option Int
  end_date : Option Int
  change_type : Option String
  responsible_user : Option String
deriving DecidableEq, Repr

/-- `PropertyHistoryAuditRecord`: one immutable entry per history query. -/
structure PropertyHistoryAuditRecord where
  audit_id : String
  user_id : String
  consulted_property_id : String
  consultation_timestamp : Int
  applied_filters : HistoryQueryParams
  records_returned : Nat
  exported : Bool
  export_format : Option String
deriving DecidableEq, Repr

/-- `SequencialRecord` from codigoSequencialStore.ts. -/
structure SequencialRecord where
  data_referencia : String
  ultimo_sequencial : Nat
  created_at : Int
  updated_at : Int
deriving DecidableEq, Repr

/-- The request body accepted by `createSchema` (propertyValidation.ts). -/
structure CreateBody where
  tipo_propriedade : String
  endereco_completo : String
  cep : String
  bairro : String
  cidade : String
  estado : String
  area_total : ℚ
  quartos : Option Int
  banheiros : Option Int
  vagas_garagem : Int
  valor_aluguel : ℚ
  valor_condominio : Option ℚ
  valor_iptu : Option ℚ
  descricao : Option String
  usuario_cadastro : String
deriving DecidableEq, Repr

/-- The request body accepted by `updateSchema` (propertyUpdateValidation.ts):
same fields as the create body, minus `usuario_cadastro`, plus `status`. -/
structure UpdateBody where
  tipo_propriedade : String
  endereco_completo : String
  cep : String
  bairro : String
  cidade : String
  estado : String
  area_total : ℚ
  quartos : Option Int
  banheiros : Option Int
  vagas_garagem : Int
  valor_aluguel : ℚ
  valor_condominio : Option ℚ
  valor_iptu : Option ℚ
  descricao : Option String
  status : String
deriving DecidableEq, Repr

/-- `ServiceError` (utils): code, message and HTTP status. -/
structure ServiceError where
  code : String
  message : String
  httpStatus : Nat
deriving DecidableEq, Repr

/-- The combined state of the four singleton stores. -/
structure SystemState where
  properties : Store PropertyEntity
  changes : Store PropertyHistoryChangeRecord
  events : Store PropertyLifecycleEventRecord
  audits : Store PropertyHistoryAuditRecord
  sequentials : Store SequencialRecord
deriving DecidableEq

/-- All stores start empty. -/
def initialState : SystemState :=
  { properties := [], changes := [], events := [], audits := [], sequentials := [] }

/-! ## Constants (constants/property, constants/propertyHistory) -/

/-- `PROPERTY_DEFAULTS.MAX_RECORDS`. -/
def MAX_RECORDS : Nat := 10000

/-- `PROPERTY_DEFAULTS.STATUS`. -/
def DEFAULT_STATUS : String := "Disponível"

/-- `PROPERTY_TYPES` values. -/
def propertyTypes : List String :=
  ["Casa", "Apartamento", "Kitnet", "Loja", "Sala Comercial", "Galpão"]

/-- `COMMERCIAL_TYPES` values. -/
def commercialTypes : List String := ["Loja", "Sala Comercial", "Galpão"]

/-- `PROPERTY_STATUS` values. -/
def propertyStatuses : List String := ["Disponível", "Ocupada", "Manutenção", "Inativa"]

/-- `VALID_ESTADOS` values. -/
def validEstados : List String :=
  ["AC", "AL", "AP", "AM", "BA", "CE", "DF", "ES", "GO", "MA", "MT", "MS", "MG",
   "PA", "PB", "PR", "PE", "PI", "RJ", "RN", "RS", "RO", "RR", "SC", "SP", "SE", "TO"]

/-- `PROPERTY_CHANGE_TYPES` values. -/
def changeTypes : List String :=
  ["mudancas_valor_aluguel", "alteracoes_status_propriedade",
   "modificacoes_descricao_propriedade", "atualizacoes_caracteristicas",
   "mudancas_dados_contato_proprietario", "todos"]

/-- `PROPERTY_CHANGE_TYPES.TODOS`. -/
def TODOS : String := "todos"

/-- `PROPERTY_LIMITS.AREA_MIN` = 0.01, as an exact rational. -/
def AREA_MIN : ℚ := Rat.mk' 1 100 (by decide) (by norm_num)

/-! ## Regex models (Zod schemas) -/

/-- JS `\d`. -/
def isDigitChar (c : Char) : Bool := '0' ≤ c ∧ c ≤ '9'

/-- JS `\s` (the whitespace characters that can occur in the validated
Latin-1 text fields). -/
def isJsSpace (c : Char) : Bool :=
  c = ' ' ∨ c = '\t' ∨ c = '\n' ∨ c = '\r' ∨ c = '\x0b' ∨ c = '\x0c' ∨ c = Char.ofNat 0xA0

/-- The character class `[A-Za-zÀ-ÿ\s]` of the address regex. -/
def isEnderecoChar (c : Char) : Bool :=
  ('A' ≤ c ∧ c ≤ 'Z') ∨ ('a' ≤ c ∧ c ≤ 'z') ∨ ('À' ≤ c ∧ c ≤ 'ÿ') ∨ isJsSpace c

/-- One item of a linear regular expression: a character class used exactly
once, one-or-more times (`+`) or zero-or-more times (`*`). -/
inductive RItem where
  | single (p : Char → Bool)
  | more (p : Char → Bool)
  | many (p : Char → Bool)

/-- Backtracking matcher for a sequence of `RItem`s against a prefix of the
input, the semantics of an unanchored-at-the-end JS regex `^...`.  Structural
recursion on an explicit fuel; every recursive call strictly decreases
`items.length + cs.length`, so the fuel chosen in `matchItems` never runs out. -/
def matchItemsGo : Nat → List RItem → List Char → Bool
  | 0, _, _ => false
  | _ + 1, [], _ => true
  | _ + 1, RItem.single _ :: _, [] => false
  | fuel + 1, RItem.single p :: rest, c :: cs => p c && matchItemsGo fuel rest cs
  | _ + 1, RItem.more _ :: _, [] => false
  | fuel + 1, RItem.more p :: rest, c :: cs =>
      p c && matchItemsGo fuel (RItem.many p :: rest) cs
  | fuel + 1, RItem.many p :: rest, cs =>
      matchItemsGo fuel rest cs ||
        (match cs with
         | [] => false
         | c :: cs' => p c && matchItemsGo fuel (RItem.many p :: rest) cs')

/-- Run the matcher with sufficient fuel. -/
def matchItems (items : List RItem) (cs : List Char) : Bool :=
  matchItemsGo (items.length + cs.length + 1) items cs

/-- The address regex `/^[A-Za-zÀ-ÿ\s]+\s+[A-Za-zÀ-ÿ\s]+,\s*\d+/`. -/
def enderecoRegexOk (s : String) : Bool :=
  matchItems
    [RItem.more isEnderecoChar, RItem.more isJsSpace, RItem.more isEnderecoChar,
     RItem.single (fun c => c = ','), RItem.many isJsSpace, RItem.more isDigitChar]
    s.data

/-- `cepSchema`: length 9 and `/^\d{5}-\d{3}$/`. -/
def cepValid (s : String) : Bool :=
  match s.data with
  | [a, b, c, d, e, h, f, g, i] =>
      isDigitChar a && isDigitChar b && isDigitChar c && isDigitChar d && isDigitChar e &&
        h = '-' && isDigitChar f && isDigitChar g && isDigitChar i
  | _ => false

/-- Hexadecimal digit. -/
def isHexChar (c : Char) : Bool :=
  isDigitChar c ∨ ('a' ≤ c ∧ c ≤ 'f') ∨ ('A' ≤ c ∧ c ≤ 'F')

/-- Zod's `z.string().uuid()`, modelled as the 8-4-4-4-12 hex shape. -/
def isUuid (s : String) : Bool :=
  s.data.length = 36 &&
    (s.data.enum.all fun ic =>
      if ic.1 = 8 ∨ ic.1 = 13 ∨ ic.1 = 18 ∨ ic.1 = 23 then ic.2 = '-' else isHexChar ic.2)

/-! ## Validation schemas -/

/-- `createSchema.safeParse` succeeding (propertyValidation.ts), including the
BR-004 refinement that commercial properties must not carry `quartos`. -/
def createValid (b : CreateBody) : Bool :=
  decide (b.tipo_propriedade ∈ propertyTypes) &&
  decide (1 ≤ b.endereco_completo.length ∧ b.endereco_completo.length ≤ 200) &&
  enderecoRegexOk b.endereco_completo &&
  cepValid b.cep &&
  decide (1 ≤ b.bairro.length ∧ b.bairro.length ≤ 100) &&
  decide (1 ≤ b.cidade.length ∧ b.cidade.length ≤ 100) &&
  decide (b.estado ∈ validEstados) &&
  decide (AREA_MIN ≤ b.area_total ∧ b.area_total ≤ 10000) &&
  (match b.quartos with
   | none => true
   | some q => decide (0 ≤ q ∧ q ≤ 20)) &&
  (match b.banheiros with
   | none => true
   | some q => decide (0 ≤ q ∧ q ≤ 10)) &&
  decide (0 ≤ b.vagas_garagem ∧ b.vagas_garagem ≤ 20) &&
  decide (0 < b.valor_aluguel) &&
  (match b.valor_condominio with
   | none => true
   | some v => decide (0 ≤ v)) &&
  (match b.valor_iptu with
   | none => true
   | some v => decide (0 ≤ v)) &&
  (match b.descricao with
   | none => true
   | some d => decide (d.length ≤ 1000)) &&
  decide (1 ≤ b.usuario_cadastro.length) &&
  (if b.tipo_propriedade ∈ commercialTypes then decide (b.quartos = none) else true)

/-- `updateSchema.safeParse` succeeding (propertyUpdateValidation.ts). -/
def updateValid (b : UpdateBody) : Bool :=
  decide (b.tipo_propriedade ∈ propertyTypes) &&
  decide (1 ≤ b.endereco_completo.length ∧ b.endereco_completo.length ≤ 200) &&
  enderecoRegexOk b.endereco_completo &&
  cepValid b.cep &&
  decide (1 ≤ b.bairro.length ∧ b.bairro.length ≤ 100) &&
  decide (1 ≤ b.cidade.length ∧ b.cidade.length ≤ 100) &&
  decide (b.estado ∈ validEstados) &&
  decide (AREA_MIN ≤ b.area_total ∧ b.area_total ≤ 10000) &&
  (match b.quartos with
   | none => true
   | some q => decide (0 ≤ q ∧ q ≤ 20)) &&
  (match b.banheiros with
   | none => true
   | some q => decide (0 ≤ q ∧ q ≤ 10)) &&
  decide (0 ≤ b.vagas_garagem ∧ b.vagas_garagem ≤ 20) &&
  decide (0 < b.valor_aluguel) &&
  (match b.valor_condominio with
   | none => true
   | some v => decide (0 ≤ v)) &&
  (match b.valor_iptu with
   | none => true
   | some v => decide (0 ≤ v)) &&
  (match b.descricao with
   | none => true
   | some d => decide (d.length ≤ 1000)) &&
  decide (b.status ∈ propertyStatuses) &&
  (if b.tipo_propriedade ∈ commercialTypes then decide (b.quartos = none) else true)

/-- `historyQuerySchema.safeParse` succeeding (propertyHistoryValidation.ts).
`dateSchema` requires each date to be no later than `now`; the cross-field
refinement requires `start_date ≤ end_date` when both are given. -/
def historyQueryValid (now : Int) (q : HistoryQueryParams) : Bool :=
  isUuid q.property_id &&
  (match q.start_date with
   | none => true
   | some d => decide (d ≤ now)) &&
  (match q.end_date with
   | none => true
   | some d => decide (d ≤ now)) &&
  (match q.change_type with
   | none => true
   | some ct => decide (ct ∈ changeTypes)) &&
  (match q.responsible_user with
   | none => true
   | some u => decide (1 ≤ u.length)) &&
  (match q.start_date, q.end_date with
   | some sd, some ed => decide (sd ≤ ed)
   | _, _ => true)

/-! ## Service errors (utils/ServiceError as thrown by the services) -/

/-- `VALIDATION_ERROR` (400) thrown by create/update/history query. -/
def validationError : ServiceError := ⟨"VALIDATION_ERROR", "Validation failed", 400⟩

/-- `DUPLICATE_ADDRESS` (409) thrown by `propertyCreate`. -/
def createDuplicateError : ServiceError :=
  ⟨"DUPLICATE_ADDRESS",
   "Já existe uma propriedade cadastrada com este endereço completo, bairro, CEP, cidade e estado",
   409⟩

/-- `DUPLICATE_ADDRESS` (409) thrown by `propertyUpdate`. -/
def updateDuplicateError : ServiceError :=
  ⟨"DUPLICATE_ADDRESS",
   "Já existe outra propriedade cadastrada com este endereço completo, bairro, CEP, cidade e estado",
   409⟩

/-- `MAX_RECORDS_REACHED` (507) thrown by `propertyCreate`. -/
def maxRecordsError : ServiceError :=
  ⟨"MAX_RECORDS_REACHED", "Limite máximo de propriedades atingido", 507⟩

/-- `NOT_FOUND` (404) thrown by `propertyGet`/`propertyUpdate`. -/
def notFoundError : ServiceError := ⟨"NOT_FOUND", "Propriedade não encontrada", 404⟩

/-- `NOT_FOUND` (404) thrown by `propertyHistoryQuery`. -/
def historyNotFoundError : ServiceError :=
  ⟨"NOT_FOUND", "Propriedade não encontrada no sistema", 404⟩

/-! ## PropertyStore (instances/property/propertyStore.ts) -/

/-- `PropertyStore.existsByAddress`: some stored property matches the given
address combination (address, neighborhood, city case-insensitively, state
upper-cased, CEP exactly). -/
def existsByAddress (props : Store PropertyEntity)
    (endereco_completo bairro cep cidade estado : String) : Bool :=
  (storeValues props).any fun p =>
    decide (lowerStr p.endereco_completo = lowerStr endereco_completo ∧
      lowerStr p.bairro = lowerStr bairro ∧
      p.cep = cep ∧
      lowerStr p.cidade = lowerStr cidade ∧
      upperStr p.estado = upperStr estado)

/-! ## CodigoSequencialStore (instances/property/codigoSequencialStore.ts) -/

/-- `CodigoSequencialStore.getNextSequential`: increments (or creates at 1)
the per-date sequential.  The busy-wait lock is a no-op single-threaded. -/
def getNextSequential (dateRef : String) (now : Int) (seqs : Store SequencialRecord) :
    Nat × Store SequencialRecord :=
  match storeGet dateRef seqs with
  | some existing =>
      let updated : SequencialRecord :=
        { existing with ultimo_sequencial := existing.ultimo_sequencial + 1, updated_at := now }
      (existing.ultimo_sequencial + 1, storeSet dateRef updated seqs)
  | none =>
      (1, storeSet dateRef ⟨dateRef, 1, now, now⟩ seqs)

/-- JS `String(n).padStart(3, '0')` for a natural number. -/
def padStart3 (n : Nat) : String :=
  let s := toString n
  if s.length ≥ 3 then s else ⟨List.replicate (3 - s.length) '0' ++ s.data⟩

/-- `generatePropertyCode` (propertyService.ts): `PROP-YYYYMMDD-XXX` where
`dateStr` models today's `YYYYMMDD` and the sequential store is threaded. -/
def generatePropertyCode (dateStr : String) (now : Int) (seqs : Store SequencialRecord) :
    String × Store SequencialRecord :=
  let r := getNextSequential dateStr now seqs
  ("PROP-" ++ dateStr ++ "-" ++ padStart3 r.1, r.2)

/-! ## propertyCreate / propertyGet / propertyList (propertyService.ts) -/

/-- The entity literal built by `propertyCreate` after all checks pass. -/
def mkNewProperty (now : Int) (uuid codigo : String) (b : CreateBody) : PropertyEntity :=
  { property_id := uuid
    codigo_propriedade := codigo
    tipo_propriedade := b.tipo_propriedade
    endereco_completo := b.endereco_completo
    cep := b.cep
    bairro := b.bairro
    cidade := b.cidade
    estado := b.estado
    area_total := b.area_total
    quartos := b.quartos
    banheiros := b.banheiros
    vagas_garagem := b.vagas_garagem
    valor_aluguel := b.valor_aluguel
    valor_condominio := b.valor_condominio
    valor_iptu := b.valor_iptu
    descricao := b.descricao
    status := DEFAULT_STATUS
    data_cadastro := now
    usuario_cadastro := b.usuario_cadastro }

/-- `propertyCreate`: validation, then duplicate-address check (BR-001), then
the `MAX_RECORDS` storage limit, then code generation and insertion. -/
def propertyCreate (now : Int) (uuid dateStr : String) (body : CreateBody) (s : SystemState) :
    Except ServiceError PropertyEntity × SystemState :=
  if createValid body then
    if existsByAddress s.properties body.endereco_completo body.bairro body.cep
        body.cidade body.estado then
      (Except.error createDuplicateError, s)
    else if MAX_RECORDS ≤ s.properties.length then
      (Except.error maxRecordsError, s)
    else
      let g := generatePropertyCode dateStr now s.sequentials
      let p := mkNewProperty now uuid g.1 body
      (Except.ok p, { s with properties := storeSet uuid p s.properties, sequentials := g.2 })
  else
    (Except.error validationError, s)

/-- `propertyGet`: read-only lookup. -/
def propertyGet (property_id : String) (s : SystemState) : Except ServiceError PropertyEntity :=
  match storeGet property_id s.properties with
  | none => Except.error notFoundError
  | some r => Except.ok r

/-- `PropertyListResponse` from propertyTypes.ts. -/
structure PropertyListResponse where
  property_id : String
  codigo_propriedade : String
  tipo_propriedade : String
  endereco_completo : String
  bairro : String
  cidade : String
  estado : String
  valor_aluguel : ℚ
  status : String
  data_cadastro : Int
deriving DecidableEq, Repr

/-- `propertyList`: read-only projection of the store. -/
def propertyList (s : SystemState) : List PropertyListResponse :=
  (storeValues s.properties).map fun p =>
    { property_id := p.property_id
      codigo_propriedade := p.codigo_propriedade
      tipo_propriedade := p.tipo_propriedade
      endereco_completo := p.endereco_completo
      bairro := p.bairro
      cidade := p.cidade
      estado := p.estado
      valor_aluguel := p.valor_aluguel
      status := p.status
      data_cadastro := p.data_cadastro }

/-! ## propertyUpdate (propertyUpdateService.ts) -/

/-- The duplicate-address check of `propertyUpdate` (excludes the property
being updated by its id). -/
def updateDupExists (property_id : String) (b : UpdateBody)
    (props : Store PropertyEntity) : Bool :=
  (storeValues props).any fun p =>
    decide (p.property_id ≠ property_id ∧
      lowerStr p.endereco_completo = lowerStr b.endereco_completo ∧
      lowerStr p.bairro = lowerStr b.bairro ∧
      p.cep = b.cep ∧
      lowerStr p.cidade = lowerStr b.cidade ∧
      upperStr p.estado = upperStr b.estado)

/-- The spread `{ ...existing, ...15 updated fields }` of `propertyUpdate`. -/
def applyUpdate (existing : PropertyEntity) (b : UpdateBody) : PropertyEntity :=
  { existing with
    tipo_propriedade := b.tipo_propriedade
    endereco_completo := b.endereco_completo
    cep := b.cep
    bairro := b.bairro
    cidade := b.cidade
    estado := b.estado
    area_total := b.area_total
    quartos := b.quartos
    banheiros := b.banheiros
    vagas_garagem := b.vagas_garagem
    valor_aluguel := b.valor_aluguel
    valor_condominio := b.valor_condominio
    valor_iptu := b.valor_iptu
    descricao := b.descricao
    status := b.status }

/-- `propertyUpdate`: validation, existence, duplicate check excluding self,
then in-place replacement in the store. -/
def propertyUpdate (property_id : String) (body : UpdateBody) (s : SystemState) :
    Except ServiceError PropertyEntity × SystemState :=
  if updateValid body then
    match storeGet property_id s.properties with
    | none => (Except.error notFoundError, s)
    | some existing =>
        if updateDupExists property_id body s.properties then
          (Except.error updateDuplicateError, s)
        else
          let updated := applyUpdate existing body
          (Except.ok updated, { s with properties := storeSet property_id updated s.properties })
  else
    (Except.error validationError, s)

/-! ## PropertyHistoryStore (instances/propertyHistory/propertyHistoryStore.ts) -/

/-- Descending-by-date order used by `getChangesByPropertyId`. -/
def changeDesc (a b : PropertyHistoryChangeRecord) : Prop :=
  b.change_date ≤ a.change_date

instance : DecidableRel changeDesc := fun a b => Int.decLe b.change_date a.change_date

instance : IsTotal PropertyHistoryChangeRecord changeDesc :=
  ⟨fun a b => by unfold changeDesc; exact le_total b.change_date a.change_date⟩

instance : IsTrans PropertyHistoryChangeRecord changeDesc :=
  ⟨fun _ _ _ h h' => le_trans h' h⟩

/-- Ascending-by-date order used by the summary computation. -/
def changeAsc (a b : PropertyHistoryChangeRecord) : Prop :=
  a.change_date ≤ b.change_date

instance : DecidableRel changeAsc := fun a b => Int.decLe a.change_date b.change_date

instance : IsTotal PropertyHistoryChangeRecord changeAsc :=
  ⟨fun a b => by unfold changeAsc; exact le_total a.change_date b.change_date⟩

instance : IsTrans PropertyHistoryChangeRecord changeAsc :=
  ⟨fun _ _ _ h h' => le_trans h h'⟩

/-- Descending-by-date order on lifecycle events. -/
def eventDesc (a b : PropertyLifecycleEventRecord) : Prop :=
  b.event_date ≤ a.event_date

instance : DecidableRel eventDesc := fun a b => Int.decLe b.event_date a.event_date

instance : IsTotal PropertyLifecycleEventRecord eventDesc :=
  ⟨fun a b => by unfold eventDesc; exact le_total b.event_date a.event_date⟩

instance : IsTrans PropertyLifecycleEventRecord eventDesc :=
  ⟨fun _ _ _ h h' => le_trans h' h⟩

/-- `PropertyHistoryStore.getChangesByPropertyId`: linear filter then stable
sort, newest first (JS `Array.prototype.sort` is stable). -/
def getChangesByPropertyId (changes : Store PropertyHistoryChangeRecord)
    (property_id : String) : List PropertyHistoryChangeRecord :=
  List.insertionSort changeDesc
    ((storeValues changes).filter fun c => decide (c.property_id = property_id))

/-- `PropertyHistoryStore.getEventsByPropertyId`. -/
def getEventsByPropertyId (events : Store PropertyLifecycleEventRecord)
    (property_id : String) : List PropertyLifecycleEventRecord :=
  List.insertionSort eventDesc
    ((storeValues events).filter fun e => decide (e.property_id = property_id))

/-! ## propertyHistoryQuery (propertyHistoryService.ts) -/

/-- `endDate.setHours(23, 59, 59, 999)` on a UTC-midnight date value. -/
def endOfDayMillis (d : Int) : Int := d + 86399999

/-- `if (queryParams.start_date) changes = changes.filter(date >= startDate)`. -/
def applyStartDateFilter {A : Type} (dateOf : A -> Int) (sd : Option Int) (l : List A) :
    List A :=
  match sd with
  | some d => l.filter fun x => decide (d <= dateOf x)
  | none => l

/-- `if (queryParams.end_date) changes = changes.filter(date <= endOfDay)`. -/
def applyEndDateFilter {A : Type} (dateOf : A -> Int) (ed : Option Int) (l : List A) :
    List A :=
  match ed with
  | some d => l.filter fun x => decide (dateOf x <= endOfDayMillis d)
  | none => l

/-- `if (queryParams.change_type && change_type !== TODOS) changes = changes.filter(...)`. -/
def applyChangeTypeFilter (ct : Option String) (l : List PropertyHistoryChangeRecord) :
    List PropertyHistoryChangeRecord :=
  match ct with
  | some t => if t = TODOS then l else l.filter fun c => decide (c.change_type = t)
  | none => l

/-- `if (queryParams.responsible_user) changes = changes.filter(user matches, case-insensitive)`. -/
def applyUserFilter (ru : Option String) (l : List PropertyHistoryChangeRecord) :
    List PropertyHistoryChangeRecord :=
  match ru with
  | some u => l.filter fun c => decide (lowerStr c.user_responsible = lowerStr u)
  | none => l

/-- The four sequential change filters of `propertyHistoryQuery`. -/
def filterChanges (q : HistoryQueryParams) (l : List PropertyHistoryChangeRecord) :
    List PropertyHistoryChangeRecord :=
  applyUserFilter q.responsible_user
    (applyChangeTypeFilter q.change_type
      (applyEndDateFilter (fun c => c.change_date) q.end_date
        (applyStartDateFilter (fun c => c.change_date) q.start_date l)))

/-- The two date filters applied to lifecycle events. -/
def filterEvents (q : HistoryQueryParams) (l : List PropertyLifecycleEventRecord) :
    List PropertyLifecycleEventRecord :=
  applyEndDateFilter (fun e => e.event_date) q.end_date
    (applyStartDateFilter (fun e => e.event_date) q.start_date l)

/-- The `summary` object of the response. -/
structure PropertyHistorySummary where
  total_changes : Nat
  total_events : Nat
  first_change_date : Option Int
  last_change_date : Option Int
deriving DecidableEq, Repr

/-- `PropertyHistoryResponse`. -/
structure PropertyHistoryResponse where
  changes : List PropertyHistoryChangeRecord
  lifecycle_events : List PropertyLifecycleEventRecord
  summary : PropertyHistorySummary
deriving DecidableEq, Repr

/-- The audit record built by `registerAuditLog` for a history query: the
stubbed `"system"` user, the validated query parameters as the applied
filters, the returned record count, and `exported: false`. -/
def mkAuditRecord (now : Int) (auditUuid : String) (q : HistoryQueryParams) (n : Nat) :
    PropertyHistoryAuditRecord :=
  { audit_id := auditUuid
    user_id := "system"
    consulted_property_id := q.property_id
    consultation_timestamp := now
    applied_filters := q
    records_returned := n
    exported := false
    export_format := none }

/-- `propertyHistoryQuery`: validate, check the property exists, filter the
changes and events, compute the summary over ALL changes of the property,
append one audit record, return the response. -/
def propertyHistoryQuery (now : Int) (auditUuid : String) (q : HistoryQueryParams)
    (s : SystemState) : Except ServiceError PropertyHistoryResponse × SystemState :=
  if historyQueryValid now q then
    match storeGet q.property_id s.properties with
    | none => (Except.error historyNotFoundError, s)
    | some _ =>
        let changes := filterChanges q (getChangesByPropertyId s.changes q.property_id)
        let events := filterEvents q (getEventsByPropertyId s.events q.property_id)
        let allChanges := getChangesByPropertyId s.changes q.property_id
        let sortedChanges := List.insertionSort changeAsc allChanges
        let summary : PropertyHistorySummary :=
          { total_changes := changes.length
            total_events := events.length
            first_change_date := sortedChanges.head?.map fun c => c.change_date
            last_change_date := sortedChanges.getLast?.map fun c => c.change_date }
        let audit := mkAuditRecord now auditUuid q (changes.length + events.length)
        (Except.ok { changes := changes, lifecycle_events := events, summary := summary },
         { s with audits := storeSet auditUuid audit s.audits })
  else
    (Except.error validationError, s)

/-! ## registerPropertyChange / registerLifecycleEvent -/

/-- Parameter object of `registerPropertyChange`. -/
structure ChangeParams where
  property_id : String
  user_responsible : String
  field_modified : String
  previous_value : Option String
  new_value : String
  change_reason : String
  property_status : String
  change_type : String
deriving DecidableEq, Repr

/-- Parameter object of `registerLifecycleEvent`. -/
structure EventParams where
  property_id : String
  event_type : String
  event_description : String
  related_contract_id : Option String
  related_tenant_id : Option String
  event_impact : String
deriving DecidableEq, Repr

/-- JS `x || null` on an optional string (empty string collapses to null). -/
def jsOrElseNull (o : Option String) : Option String :=
  match o with
  | some v => if v = "" then none else some v
  | none => none

/-- The change record literal built by `registerPropertyChange`. -/
def mkChangeRecord (now : Int) (uuid : String) (ps : ChangeParams) :
    PropertyHistoryChangeRecord :=
  { change_id := uuid
    property_id := ps.property_id
    change_date := now
    user_responsible := ps.user_responsible
    field_modified := ps.field_modified
    previous_value := ps.previous_value
    new_value := ps.new_value
    change_reason := ps.change_reason
    property_status := ps.property_status
    change_type := ps.change_type }

/-- `registerPropertyChange`: build the record and `addChange` it (keyed by
its `change_id`, the generated UUID).  No validation is performed. -/
def registerPropertyChange (now : Int) (uuid : String) (ps : ChangeParams) (s : SystemState) :
    PropertyHistoryChangeRecord × SystemState :=
  let c := mkChangeRecord now uuid ps
  (c, { s with changes := storeSet uuid c s.changes })

/-- The event record literal built by `registerLifecycleEvent`. -/
def mkLifecycleEvent (now : Int) (uuid : String) (ps : EventParams) :
    PropertyLifecycleEventRecord :=
  { event_id := uuid
    property_id := ps.property_id
    event_type := ps.event_type
    event_date := now
    event_description := ps.event_description
    related_contract_id := jsOrElseNull ps.related_contract_id
    related_tenant_id := jsOrElseNull ps.related_tenant_id
    event_impact := ps.event_impact }

/-- `registerLifecycleEvent`: build the record and `addEvent` it. -/
def registerLifecycleEvent (now : Int) (uuid : String) (ps : EventParams) (s : SystemState) :
    PropertyLifecycleEventRecord × SystemState :=
  let e := mkLifecycleEvent now uuid ps
  (e, { s with events := storeSet uuid e s.events })

/-! ## Operations and reachability -/

/-- One invocation of an exported service operation, with the environment
values (`new Date()` results and generated UUIDs) as explicit arguments. -/
inductive Op where
  | createOp (now : Int) (uuid dateStr : String) (body : CreateBody)
  | updateOp (property_id : String) (body : UpdateBody)
  | getOp (property_id : String)
  | listOp
  | historyQueryOp (now : Int) (auditUuid : String) (q : HistoryQueryParams)
  | regChangeOp (now : Int) (uuid : String) (ps : ChangeParams)
  | regEventOp (now : Int) (uuid : String) (ps : EventParams)

/-- The state transition of one operation (reads leave the state unchanged;
a thrown `ServiceError` leaves the state unchanged, since every service
throws before its store mutation). -/
def runOp : Op → SystemState → SystemState
  | Op.createOp now uuid dateStr body, s => (propertyCreate now uuid dateStr body s).2
  | Op.updateOp property_id body, s => (propertyUpdate property_id body s).2
  | Op.getOp _, s => s
  | Op.listOp, s => s
  | Op.historyQueryOp now auditUuid q, s => (propertyHistoryQuery now auditUuid q s).2
  | Op.regChangeOp now uuid ps, s => (registerPropertyChange now uuid ps s).2
  | Op.regEventOp now uuid ps, s => (registerLifecycleEvent now uuid ps s).2

/-- Run a sequence of operations. -/
def runOps (ops : List Op) (s : SystemState) : SystemState :=
  ops.foldl (fun st op => runOp op st) s

/-- States reachable from the empty stores by service operations. -/
inductive Reachable : SystemState → Prop
  | init : Reachable initialState
  | step (op : Op) (s : SystemState) : Reachable s → Reachable (runOp op s)

/-! ## The address-uniqueness invariant -/

/-- The normalized address combination the duplicate checks compare. -/
def addrKey (p : PropertyEntity) : String × String × String × String × String :=
  (lowerStr p.endereco_completo, lowerStr p.bairro, p.cep, lowerStr p.cidade, upperStr p.estado)

/-- No two stored properties share a normalized address combination. -/
def AddrUnique (props : Store PropertyEntity) : Prop :=
  (storeValues props).Pairwise fun p q => addrKey p ≠ addrKey q

/-- Every stored property lives under its own `property_id` as key. -/
def EntryCoherent (props : Store PropertyEntity) : Prop :=
  ∀ e ∈ props, (e.2).property_id = e.1

/-- The store holds at most one entry per key. -/
def NodupKeys {α : Type} (l : Store α) : Prop := (l.map Prod.fst).Nodup

/-- The three structural invariants of the property store. -/
def PropsInv (s : SystemState) : Prop :=
  EntryCoherent s.properties ∧ NodupKeys s.properties ∧ AddrUnique s.properties

/-- The next sequential number `getNextSequential` will hand out for a date. -/
def nextSeqFor (dateRef : String) (seqs : Store SequencialRecord) : Nat :=
  match storeGet dateRef seqs with
  | some r => r.ultimo_sequencial + 1
  | none => 1

/-! ## Freshness of the generated UUIDs -/

/-- The UUID generated by the operation (when it stores a change record) is
not yet a key of the change store. -/
def opChangesFresh : Op → SystemState → Prop
  | Op.regChangeOp _ u _, s => storeGet u s.changes = none
  | _, _ => True

/-- Freshness for the event store. -/
def opEventsFresh : Op → SystemState → Prop
  | Op.regEventOp _ u _, s => storeGet u s.events = none
  | _, _ => True

/-- Freshness for the audit store. -/
def opAuditsFresh : Op → SystemState → Prop
  | Op.historyQueryOp _ u _, s => storeGet u s.audits = none
  | _, _ => True

/-- Freshness for the property store. -/
def opPropsFresh : Op → SystemState → Prop
  | Op.createOp _ u _ _, s => storeGet u s.properties = none
  | _, _ => True

/-- All UUIDs generated by the operation are fresh for their stores. -/
def opUuidFresh (op : Op) (s : SystemState) : Prop :=
  opChangesFresh op s ∧ opEventsFresh op s ∧ opAuditsFresh op s ∧ opPropsFresh op s

/-! ## Concrete sample data (used by the witnesses below) -/

/-- An arbitrary `new Date()` value (epoch milliseconds). -/
def t0 : Int := 1700000000000

/-- A sample generated UUID / property id. -/
def pidA : String := "11111111-1111-1111-1111-111111111111"

/-- A valid create request body. -/
def bodyA : CreateBody :=
  { tipo_propriedade := "Casa"
    endereco_completo := "Rua das Flores, 123"
    cep := "01310-100"
    bairro := "Centro"
    cidade := "São Paulo"
    estado := "SP"
    area_total := 150
    quartos := some 3
    banheiros := some 2
    vagas_garagem := 2
    valor_aluguel := 2500
    valor_condominio := some 350
    valor_iptu := some 1200
    descricao := some "Casa ampla"
    usuario_cadastro := "user123" }

/-- An invalid create body (malformed CEP). -/
def badBody : CreateBody := { bodyA with cep := "x" }

/-- The result of creating `bodyA` in the empty system. -/
def createResA : Except ServiceError PropertyEntity × SystemState :=
  propertyCreate t0 pidA "20250128" bodyA initialState

/-- The entity created by `createResA` (fallback value is never used). -/
def propA : PropertyEntity :=
  match createResA.1 with
  | Except.ok p => p
  | Except.error _ => mkNewProperty t0 pidA "PROP-20250128-001" bodyA

/-- The system state holding exactly the property `propA`. -/
def s1 : SystemState := createResA.2

/-- A valid update request body for `propA` (same address, new attributes). -/
def updA : UpdateBody :=
  { tipo_propriedade := "Casa"
    endereco_completo := "Rua das Flores, 123"
    cep := "01310-100"
    bairro := "Centro"
    cidade := "São Paulo"
    estado := "SP"
    area_total := 180
    quartos := some 4
    banheiros := some 3
    vagas_garagem := 2
    valor_aluguel := 3000
    valor_condominio := some 400
    valor_iptu := some 1500
    descricao := some "Casa reformada"
    status := "Ocupada" }

/-- A sample change record (rent change by Alice at time 100). -/
def chg1 : PropertyHistoryChangeRecord :=
  { change_id := "c1", property_id := pidA, change_date := 100, user_responsible := "Alice"
    field_modified := "valor_aluguel", previous_value := some "2500", new_value := "2800"
    change_reason := "Reajuste anual", property_status := "Ocupada"
    change_type := "mudancas_valor_aluguel" }

/-- A sample change record (status change by bob at time 200). -/
def chg2 : PropertyHistoryChangeRecord :=
  { change_id := "c2", property_id := pidA, change_date := 200, user_responsible := "bob"
    field_modified := "status", previous_value := some "Disponível", new_value := "Ocupada"
    change_reason := "Locação", property_status := "Ocupada"
    change_type := "alteracoes_status_propriedade" }

/-- A sample lifecycle event at time 150. -/
def evt1 : PropertyLifecycleEventRecord :=
  { event_id := "e1", property_id := pidA, event_type := "criacao_propriedade_sistema"
    event_date := 150, event_description := "Propriedade criada no sistema"
    related_contract_id := none, related_tenant_id := none
    event_impact := "Propriedade disponível para locação" }

/-- A populated state: one property, two changes, one event. -/
def s3 : SystemState :=
  { properties := [(pidA, propA)]
    changes := [("c1", chg1), ("c2", chg2)]
    events := [("e1", evt1)]
    audits := []
    sequentials := [] }

/-- A fully filtered history query over `s3`. -/
def qA : HistoryQueryParams :=
  { property_id := pidA, start_date := some 50, end_date := some 100
    change_type := some "mudancas_valor_aluguel", responsible_user := some "ALICE" }

/-- The result of running the query `qA` on `s3`. -/
def histResA : Except ServiceError PropertyHistoryResponse × SystemState :=
  propertyHistoryQuery t0 "audit-1" qA s3

/-- The response of `histResA` (fallback value is never used). -/
def respA : PropertyHistoryResponse :=
  match histResA.1 with
  | Except.ok r => r
  | Except.error _ => { changes := [], lifecycle_events := [], summary := ⟨0, 0, none, none⟩ }

/-- Sample parameters for `registerPropertyChange`. -/
def psC : ChangeParams :=
  { property_id := pidA, user_responsible := "carol", field_modified := "descricao"
    previous_value := none, new_value := "Nova descricao", change_reason := "Atualização"
    property_status := "Ocupada", change_type := "modificacoes_descricao_propriedade" }

/-- Sample parameters for `registerLifecycleEvent`. -/
def evC : EventParams :=
  { property_id := pidA, event_type := "vinculacao_contrato"
    event_description := "Contrato vinculado", related_contract_id := some "ct-1"
    related_tenant_id := some "tn-1", event_impact := "Propriedade ocupada" }

/-- A state whose daily sequential for `20250128` already reached 999. -/
def s999 : SystemState :=
  { properties := [], changes := [], events := [], audits := []
    sequentials := [("20250128", ⟨"20250128", 999, 0, 0⟩)] }

/-- The property created on top of a daily sequential of 999. -/
def p1000 : PropertyEntity :=
  match (propertyCreate t0 pidA "20250128" bodyA s999).1 with
  | Except.ok p => p
  | Except.error _ => propA

/-- Whether `code` is literally `PROP-` ++ the date ++ `-` ++ a THREE-digit
suffix, the shape `PROP-YYYYMMDD-NNN` asserts with `NNN` three digits. -/
def threeDigitCodeFormat (dateStr code : String) : Bool :=
  decide (code = "PROP-" ++ dateStr ++ "-" ++ String.mk (code.data.drop 14)) &&
  decide ((code.data.drop 14).length = 3) &&
  (code.data.drop 14).all isDigitChar

/-! ## Lemmas about the association-list store -/

theorem storeGet_storeSet_self {α : Type} (k : String) (v : α) (l : Store α) :
    storeGet k (storeSet k v l) = some v := by
  induction l with
  | nil => simp [storeSet, storeGet]
  | cons e rest ih =>
      obtain ⟨k', v'⟩ := e
      by_cases h : k' = k
      · subst h; simp [storeSet, storeGet]
      · simp [storeSet, storeGet, h, ih]

theorem storeGet_storeSet_ne {α : Type} {k k' : String} (v : α) (l : Store α)
    (h : k' ≠ k) : storeGet k' (storeSet k v l) = storeGet k' l := by
  induction l with
  | nil =>
      simp only [storeSet, storeGet]
      rw [if_neg (fun he => h he.symm)]
  | cons e rest ih =>
      obtain ⟨k'', v''⟩ := e
      by_cases h2 : k'' = k
      · subst h2
        simp only [storeSet, if_pos rfl, storeGet]
        rw [if_neg (fun he => h he.symm), if_neg (fun he => h he.symm)]
      · simp only [storeSet, if_neg h2, storeGet]
        by_cases h3 : k'' = k'
        · simp [h3]
        · simp [h3, ih]

theorem mem_storeSet {α : Type} {e : String × α} {k : String} {v : α} {l : Store α}
    (h : e ∈ storeSet k v l) : e = (k, v) ∨ e ∈ l := by
  induction l with
  | nil => simpa [storeSet] using h
  | cons e' rest ih =>
      obtain ⟨k', v'⟩ := e'
      by_cases h2 : k' = k
      · subst h2
        simp only [storeSet, if_pos rfl] at h
        rcases List.mem_cons.mp h with h3 | h3
        · exact Or.inl h3
        · exact Or.inr (List.mem_cons_of_mem _ h3)
      · simp only [storeSet, if_neg h2] at h
        rcases List.mem_cons.mp h with h3 | h3
        · exact Or.inr (h3 ▸ List.mem_cons_self _ _)
        · rcases ih h3 with h4 | h4
          · exact Or.inl h4
          · exact Or.inr (List.mem_cons_of_mem _ h4)

theorem mem_values_storeSet {α : Type} {w : α} {k : String} {v : α} {l : Store α}
    (h : w ∈ storeValues (storeSet k v l)) : w = v ∨ w ∈ storeValues l := by
  simp only [storeValues, List.mem_map] at h
  obtain ⟨e, he, hw⟩ := h
  rcases mem_storeSet he with h2 | h2
  · exact Or.inl (by rw [← hw, h2])
  · exact Or.inr (by simp only [storeValues, List.mem_map]; exact ⟨e, h2, hw⟩)

theorem storeSet_of_get_none {α : Type} {k : String} {l : Store α} (v : α)
    (h : storeGet k l = none) : storeSet k v l = l ++ [(k, v)] := by
  induction l with
  | nil => simp [storeSet]
  | cons e rest ih =>
      obtain ⟨k', v'⟩ := e
      by_cases h2 : k' = k
      · simp [storeGet, h2] at h
      · simp only [storeGet, if_neg h2] at h
        simp [storeSet, h2, ih h]

theorem storeGet_mem {α : Type} {k : String} {v : α} {l : Store α}
    (h : storeGet k l = some v) : (k, v) ∈ l := by
  induction l with
  | nil => simp [storeGet] at h
  | cons e rest ih =>
      obtain ⟨k', v'⟩ := e
      by_cases h2 : k' = k
      · subst h2
        simp only [storeGet, if_true, eq_self_iff_true, if_pos, Option.some.injEq] at h
        subst h
        exact List.mem_cons_self _ _
      · simp only [storeGet, if_neg h2] at h
        exact List.mem_cons_of_mem _ (ih h)

theorem hasKey_storeSet_of_hasKey {α : Type} {k' : String} (k : String) (v : α)
    {l : Store α} (h : storeHasKey k' l = true) :
    storeHasKey k' (storeSet k v l) = true := by
  by_cases h2 : k' = k
  · subst h2
    simp [storeHasKey, storeGet_storeSet_self]
  · simpa [storeHasKey, storeGet_storeSet_ne v l h2] using h

theorem keys_storeSet_subset {α : Type} {x k : String} {v : α} {l : Store α}
    (h : x ∈ (storeSet k v l).map Prod.fst) : x = k ∨ x ∈ l.map Prod.fst := by
  simp only [List.mem_map] at h
  obtain ⟨e, he, hx⟩ := h
  rcases mem_storeSet he with h2 | h2
  · exact Or.inl (by rw [← hx, h2])
  · exact Or.inr (by simp only [List.mem_map]; exact ⟨e, h2, hx⟩)

theorem nodupKeys_storeSet {α : Type} {k : String} {v : α} {l : Store α}
    (h : (l.map Prod.fst).Nodup) : ((storeSet k v l).map Prod.fst).Nodup := by
  induction l with
  | nil => simp [storeSet]
  | cons e rest ih =>
      obtain ⟨k', v'⟩ := e
      simp only [List.map_cons, List.nodup_cons] at h
      by_cases h2 : k' = k
      · subst h2
        simpa [storeSet, List.nodup_cons] using h
      · simp only [storeSet, if_neg h2, List.map_cons, List.nodup_cons]
        refine ⟨fun hmem => ?_, ih h.2⟩
        rcases keys_storeSet_subset hmem with h3 | h3
        · exact h2 h3
        · exact h.1 h3

theorem existsByAddress_eq_false_iff (props : Store PropertyEntity)
    (e b c ci es : String) :
    existsByAddress props e b c ci es = false ↔
      ∀ p ∈ storeValues props,
        addrKey p ≠ (lowerStr e, lowerStr b, c, lowerStr ci, upperStr es) := by
  simp only [existsByAddress, List.any_eq_false, decide_eq_true_eq, addrKey, Prod.mk.injEq,
    ne_eq, not_and]

theorem updateDupExists_eq_false_iff (property_id : String) (b : UpdateBody)
    (props : Store PropertyEntity) :
    updateDupExists property_id b props = false ↔
      ∀ p ∈ storeValues props, p.property_id ≠ property_id →
        addrKey p ≠ (lowerStr b.endereco_completo, lowerStr b.bairro, b.cep,
          lowerStr b.cidade, upperStr b.estado) := by
  simp only [updateDupExists, List.any_eq_false, decide_eq_true_eq, addrKey, Prod.mk.injEq,
    ne_eq, not_and]

theorem entryCoherent_storeSet {props : Store PropertyEntity} {k : String}
    {v : PropertyEntity} (hco : EntryCoherent props) (hv : v.property_id = k) :
    EntryCoherent (storeSet k v props) := by
  intro e he
  rcases mem_storeSet he with h | h
  · rw [h]; exact hv
  · exact hco e h

/-- Replacing (or inserting) the entry at key `pid` by a value whose address
clashes with no *other* stored property preserves address uniqueness. -/
theorem addrUnique_storeSet {props : Store PropertyEntity} {pid : String}
    {v : PropertyEntity}
    (hco : EntryCoherent props) (hnd : NodupKeys props) (hau : AddrUnique props)
    (hno : ∀ p ∈ storeValues props, p.property_id ≠ pid → addrKey p ≠ addrKey v)
    (hv : v.property_id = pid) :
    AddrUnique (storeSet pid v props) := by
  induction props with
  | nil =>
      simp [storeSet, AddrUnique, storeValues]
  | cons e rest ih =>
      obtain ⟨k, w⟩ := e
      have hcoRest : EntryCoherent rest := fun e he => hco e (List.mem_cons_of_mem _ he)
      have hndRest : NodupKeys rest := by
        simpa [NodupKeys, List.nodup_cons] using (List.nodup_cons.mp hnd).2
      have hauRest : AddrUnique rest := by
        simpa [AddrUnique, storeValues] using (List.pairwise_cons.mp hau).2
      by_cases h2 : k = pid
      · subst h2
        simp only [storeSet, if_pos rfl]
        simp only [AddrUnique, storeValues, List.map_cons, List.pairwise_cons]
        constructor
        · intro q hq
          -- q is the value of an entry of `rest`, whose key differs from `k`
          simp only [List.mem_map] at hq
          obtain ⟨⟨kq, vq⟩, hqm, hqv⟩ := hq
          have hkq : kq ≠ k := by
            intro hkk
            have : k ∈ rest.map Prod.fst := by
              simp only [List.mem_map]
              exact ⟨(kq, vq), hqm, hkk⟩
            exact (List.nodup_cons.mp hnd).1 this
          have hqpid : q.property_id ≠ k := by
            have := hcoRest (kq, vq) hqm
            simp only at this
            rw [← hqv, this]
            exact hkq
          have := hno q (by
            simp only [storeValues, List.map_cons, List.mem_cons]
            exact Or.inr (by simp only [List.mem_map]; exact ⟨(kq, vq), hqm, hqv⟩))
            hqpid
          exact fun hvq => this hvq.symm
        · exact (List.pairwise_cons.mp hau).2
      · simp only [storeSet, if_neg h2]
        simp only [AddrUnique, storeValues, List.map_cons, List.pairwise_cons]
        constructor
        · intro q hq
          rcases mem_values_storeSet (by simpa [storeValues] using hq) with h3 | h3
          · -- q is the new value `v`
            subst h3
            have hwpid : w.property_id ≠ pid := by
              have := hco (k, w) (List.mem_cons_self _ _)
              simp only at this
              rw [this]
              exact h2
            exact hno w (by simp [storeValues]) hwpid
          · -- q is an old value of `rest`
            exact (List.pairwise_cons.mp hau).1 q (by simpa [storeValues] using h3)
        · have := ih hcoRest hndRest hauRest
            (fun p hp hpid => hno p (by
              simp only [storeValues, List.map_cons, List.mem_cons]
              exact Or.inr (by simpa [storeValues] using hp)) hpid)
          simpa [AddrUnique, storeValues] using this

/-! ## Inversion and state-shape lemmas for the operations -/

theorem getNextSequential_fst (dateRef : String) (now : Int)
    (seqs : Store SequencialRecord) :
    (getNextSequential dateRef now seqs).1 = nextSeqFor dateRef seqs := by
  unfold getNextSequential nextSeqFor
  cases storeGet dateRef seqs <;> rfl

theorem getNextSequential_get (dateRef : String) (now : Int)
    (seqs : Store SequencialRecord) :
    ∃ r, storeGet dateRef (getNextSequential dateRef now seqs).2 = some r ∧
      r.ultimo_sequencial = nextSeqFor dateRef seqs := by
  unfold getNextSequential nextSeqFor
  cases h : storeGet dateRef seqs with
  | none => exact ⟨_, storeGet_storeSet_self _ _ _, rfl⟩
  | some r => exact ⟨_, storeGet_storeSet_self _ _ _, rfl⟩

theorem propertyCreate_ok_inv {now : Int} {uuid dateStr : String} {body : CreateBody}
    {s : SystemState} {p : PropertyEntity} {s' : SystemState}
    (h : propertyCreate now uuid dateStr body s = (Except.ok p, s')) :
    createValid body = true ∧
    existsByAddress s.properties body.endereco_completo body.bairro body.cep
      body.cidade body.estado = false ∧
    s.properties.length < MAX_RECORDS ∧
    p = mkNewProperty now uuid
      ("PROP-" ++ dateStr ++ "-" ++ padStart3 (nextSeqFor dateStr s.sequentials)) body ∧
    s' = { s with properties := storeSet uuid p s.properties,
                  sequentials := (getNextSequential dateStr now s.sequentials).2 } := by
  unfold propertyCreate at h
  by_cases h1 : createValid body = true
  · rw [if_pos h1] at h
    by_cases h2 : existsByAddress s.properties body.endereco_completo body.bairro body.cep
        body.cidade body.estado = true
    · rw [if_pos h2] at h
      simp at h
    · rw [if_neg h2] at h
      by_cases h3 : MAX_RECORDS ≤ s.properties.length
      · rw [if_pos h3] at h
        simp at h
      · rw [if_neg h3] at h
        simp only [generatePropertyCode, getNextSequential_fst, Prod.mk.injEq,
          Except.ok.injEq] at h
        refine ⟨h1, Bool.eq_false_iff.mpr h2, Nat.lt_of_not_le h3, h.1.symm, ?_⟩
        rw [← h.2, ← h.1]
  · rw [if_neg h1] at h
    simp at h

theorem propertyCreate_invalid {now : Int} {uuid dateStr : String} {body : CreateBody}
    (s : SystemState) (h1 : createValid body = false) :
    propertyCreate now uuid dateStr body s = (Except.error validationError, s) := by
  unfold propertyCreate
  rw [if_neg (by simp [h1])]

theorem propertyCreate_dup {now : Int} {uuid dateStr : String} {body : CreateBody}
    (s : SystemState) (h1 : createValid body = true)
    (h2 : existsByAddress s.properties body.endereco_completo body.bairro body.cep
      body.cidade body.estado = true) :
    propertyCreate now uuid dateStr body s = (Except.error createDuplicateError, s) := by
  unfold propertyCreate
  rw [if_pos h1, if_pos h2]

theorem propertyCreate_max {now : Int} {uuid dateStr : String} {body : CreateBody}
    (s : SystemState) (h1 : createValid body = true)
    (h2 : existsByAddress s.properties body.endereco_completo body.bairro body.cep
      body.cidade body.estado = false)
    (h3 : MAX_RECORDS ≤ s.properties.length) :
    propertyCreate now uuid dateStr body s = (Except.error maxRecordsError, s) := by
  unfold propertyCreate
  rw [if_pos h1, if_neg (by simp [h2]), if_pos h3]

theorem propertyUpdate_ok_inv {property_id : String} {body : UpdateBody}
    {s : SystemState} {p : PropertyEntity} {s' : SystemState}
    (h : propertyUpdate property_id body s = (Except.ok p, s')) :
    updateValid body = true ∧
    ∃ existing, storeGet property_id s.properties = some existing ∧
      updateDupExists property_id body s.properties = false ∧
      p = applyUpdate existing body ∧
      s' = { s with properties := storeSet property_id p s.properties } := by
  unfold propertyUpdate at h
  by_cases h1 : updateValid body = true
  · rw [if_pos h1] at h
    cases hget : storeGet property_id s.properties with
    | none =>
        rw [hget] at h
        simp at h
    | some existing =>
        rw [hget] at h
        simp only at h
        by_cases h2 : updateDupExists property_id body s.properties = true
        · rw [if_pos h2] at h
          simp at h
        · rw [if_neg h2] at h
          simp only [Prod.mk.injEq, Except.ok.injEq] at h
          refine ⟨h1, existing, rfl, Bool.eq_false_iff.mpr h2, h.1.symm, ?_⟩
          rw [← h.2, ← h.1]
  · rw [if_neg h1] at h
    simp at h

theorem propertyUpdate_ok {property_id : String} {body : UpdateBody} {s : SystemState}
    {existing : PropertyEntity}
    (hget : storeGet property_id s.properties = some existing)
    (h1 : updateValid body = true)
    (h2 : updateDupExists property_id body s.properties = false) :
    propertyUpdate property_id body s =
      (Except.ok (applyUpdate existing body),
       { s with properties := storeSet property_id (applyUpdate existing body) s.properties }) := by
  unfold propertyUpdate
  rw [if_pos h1, hget]
  simp only
  rw [if_neg (by simp [h2])]

theorem propertyUpdate_dup {property_id : String} {body : UpdateBody} {s : SystemState}
    {existing : PropertyEntity}
    (hget : storeGet property_id s.properties = some existing)
    (h1 : updateValid body = true)
    (h2 : updateDupExists property_id body s.properties = true) :
    propertyUpdate property_id body s = (Except.error updateDuplicateError, s) := by
  unfold propertyUpdate
  rw [if_pos h1, hget]
  simp only
  rw [if_pos h2]

theorem propertyCreate_state (now : Int) (uuid dateStr : String) (body : CreateBody)
    (s : SystemState) :
    (propertyCreate now uuid dateStr body s).2 = s ∨
      ∃ p, (propertyCreate now uuid dateStr body s).2 =
        { s with properties := storeSet uuid p s.properties,
                 sequentials := (getNextSequential dateStr now s.sequentials).2 } := by
  unfold propertyCreate
  by_cases h1 : createValid body = true
  · rw [if_pos h1]
    by_cases h2 : existsByAddress s.properties body.endereco_completo body.bairro body.cep
        body.cidade body.estado = true
    · rw [if_pos h2]; exact Or.inl rfl
    · rw [if_neg h2]
      by_cases h3 : MAX_RECORDS ≤ s.properties.length
      · rw [if_pos h3]; exact Or.inl rfl
      · rw [if_neg h3]
        exact Or.inr ⟨_, rfl⟩
  · rw [if_neg h1]; exact Or.inl rfl

theorem propertyUpdate_state (property_id : String) (body : UpdateBody) (s : SystemState) :
    (propertyUpdate property_id body s).2 = s ∨
      ∃ p, (propertyUpdate property_id body s).2 =
        { s with properties := storeSet property_id p s.properties } := by
  unfold propertyUpdate
  by_cases h1 : updateValid body = true
  · rw [if_pos h1]
    cases hget : storeGet property_id s.properties with
    | none => exact Or.inl rfl
    | some existing =>
        simp only
        by_cases h2 : updateDupExists property_id body s.properties = true
        · rw [if_pos h2]; exact Or.inl rfl
        · rw [if_neg h2]
          exact Or.inr ⟨_, rfl⟩
  · rw [if_neg h1]; exact Or.inl rfl

theorem propertyHistoryQuery_state (now : Int) (auditUuid : String)
    (q : HistoryQueryParams) (s : SystemState) :
    (propertyHistoryQuery now auditUuid q s).2 = s ∨
      ∃ a, (propertyHistoryQuery now auditUuid q s).2 =
        { s with audits := storeSet auditUuid a s.audits } := by
  unfold propertyHistoryQuery
  by_cases h1 : historyQueryValid now q = true
  · rw [if_pos h1]
    cases hget : storeGet q.property_id s.properties with
    | none => exact Or.inl rfl
    | some pr => exact Or.inr ⟨_, rfl⟩
  · rw [if_neg h1]; exact Or.inl rfl

theorem propertyHistoryQuery_ok_inv {now : Int} {auditUuid : String}
    {q : HistoryQueryParams} {s : SystemState} {resp : PropertyHistoryResponse}
    {s' : SystemState}
    (h : propertyHistoryQuery now auditUuid q s = (Except.ok resp, s')) :
    historyQueryValid now q = true ∧
    (∃ pr, storeGet q.property_id s.properties = some pr) ∧
    resp.changes = filterChanges q (getChangesByPropertyId s.changes q.property_id) ∧
    resp.lifecycle_events = filterEvents q (getEventsByPropertyId s.events q.property_id) ∧
    resp.summary.total_changes = resp.changes.length ∧
    resp.summary.total_events = resp.lifecycle_events.length ∧
    resp.summary.first_change_date =
      (List.insertionSort changeAsc (getChangesByPropertyId s.changes q.property_id)).head?.map
        (fun c => c.change_date) ∧
    resp.summary.last_change_date =
      (List.insertionSort changeAsc (getChangesByPropertyId s.changes q.property_id)).getLast?.map
        (fun c => c.change_date) ∧
    s' = { s with audits := storeSet auditUuid (mkAuditRecord now auditUuid q (resp.changes.length + resp.lifecycle_events.length)) s.audits } := by
  unfold propertyHistoryQuery at h
  by_cases h1 : historyQueryValid now q = true
  · rw [if_pos h1] at h
    cases hget : storeGet q.property_id s.properties with
    | none =>
        rw [hget] at h
        simp at h
    | some pr =>
        rw [hget] at h
        simp only [Prod.mk.injEq, Except.ok.injEq] at h
        obtain ⟨hresp, hstate⟩ := h
        subst hresp
        refine ⟨h1, ⟨pr, rfl⟩, rfl, rfl, rfl, rfl, rfl, rfl, hstate.symm⟩
  · rw [if_neg h1] at h
    simp at h

theorem propertyCreate_err_state {now : Int} {uuid dateStr : String} {body : CreateBody}
    {s : SystemState} {e : ServiceError} {s' : SystemState}
    (h : propertyCreate now uuid dateStr body s = (Except.error e, s')) : s' = s := by
  unfold propertyCreate at h
  by_cases h1 : createValid body = true
  · rw [if_pos h1] at h
    by_cases h2 : existsByAddress s.properties body.endereco_completo body.bairro body.cep
        body.cidade body.estado = true
    · rw [if_pos h2] at h
      exact (Prod.mk.injEq .. |>.mp h).2.symm
    · rw [if_neg h2] at h
      by_cases h3 : MAX_RECORDS ≤ s.properties.length
      · rw [if_pos h3] at h
        exact (Prod.mk.injEq .. |>.mp h).2.symm
      · rw [if_neg h3] at h
        simp at h
  · rw [if_neg h1] at h
    exact (Prod.mk.injEq .. |>.mp h).2.symm

theorem propertyUpdate_err_state {property_id : String} {body : UpdateBody}
    {s : SystemState} {e : ServiceError} {s' : SystemState}
    (h : propertyUpdate property_id body s = (Except.error e, s')) : s' = s := by
  unfold propertyUpdate at h
  by_cases h1 : updateValid body = true
  · rw [if_pos h1] at h
    cases hget : storeGet property_id s.properties with
    | none =>
        rw [hget] at h
        exact (Prod.mk.injEq .. |>.mp h).2.symm
    | some existing =>
        rw [hget] at h
        simp only at h
        by_cases h2 : updateDupExists property_id body s.properties = true
        · rw [if_pos h2] at h
          exact (Prod.mk.injEq .. |>.mp h).2.symm
        · rw [if_neg h2] at h
          simp at h
  · rw [if_neg h1] at h
    exact (Prod.mk.injEq .. |>.mp h).2.symm

theorem propertyCreate_changes (now : Int) (uuid dateStr : String) (body : CreateBody)
    (s : SystemState) :
    ((propertyCreate now uuid dateStr body s).2).changes = s.changes := by
  rcases propertyCreate_state now uuid dateStr body s with h | ⟨p, h⟩ <;> rw [h]

theorem propertyCreate_events (now : Int) (uuid dateStr : String) (body : CreateBody)
    (s : SystemState) :
    ((propertyCreate now uuid dateStr body s).2).events = s.events := by
  rcases propertyCreate_state now uuid dateStr body s with h | ⟨p, h⟩ <;> rw [h]

theorem propertyCreate_audits (now : Int) (uuid dateStr : String) (body : CreateBody)
    (s : SystemState) :
    ((propertyCreate now uuid dateStr body s).2).audits = s.audits := by
  rcases propertyCreate_state now uuid dateStr body s with h | ⟨p, h⟩ <;> rw [h]

theorem propertyUpdate_changes (property_id : String) (body : UpdateBody) (s : SystemState) :
    ((propertyUpdate property_id body s).2).changes = s.changes := by
  rcases propertyUpdate_state property_id body s with h | ⟨p, h⟩ <;> rw [h]

theorem propertyUpdate_events (property_id : String) (body : UpdateBody) (s : SystemState) :
    ((propertyUpdate property_id body s).2).events = s.events := by
  rcases propertyUpdate_state property_id body s with h | ⟨p, h⟩ <;> rw [h]

theorem propertyUpdate_audits (property_id : String) (body : UpdateBody) (s : SystemState) :
    ((propertyUpdate property_id body s).2).audits = s.audits := by
  rcases propertyUpdate_state property_id body s with h | ⟨p, h⟩ <;> rw [h]

theorem propertyHistoryQuery_properties (now : Int) (auditUuid : String)
    (q : HistoryQueryParams) (s : SystemState) :
    ((propertyHistoryQuery now auditUuid q s).2).properties = s.properties := by
  rcases propertyHistoryQuery_state now auditUuid q s with h | ⟨a, h⟩ <;> rw [h]

theorem propertyHistoryQuery_changes (now : Int) (auditUuid : String)
    (q : HistoryQueryParams) (s : SystemState) :
    ((propertyHistoryQuery now auditUuid q s).2).changes = s.changes := by
  rcases propertyHistoryQuery_state now auditUuid q s with h | ⟨a, h⟩ <;> rw [h]

theorem propertyHistoryQuery_events (now : Int) (auditUuid : String)
    (q : HistoryQueryParams) (s : SystemState) :
    ((propertyHistoryQuery now auditUuid q s).2).events = s.events := by
  rcases propertyHistoryQuery_state now auditUuid q s with h | ⟨a, h⟩ <;> rw [h]

/-! ## Preservation lemmas -/

theorem changes_preserved (op : Op) (s : SystemState) (hf : opChangesFresh op s)
    {k : String} {r : PropertyHistoryChangeRecord}
    (h : storeGet k s.changes = some r) : storeGet k (runOp op s).changes = some r := by
  cases op with
  | createOp now uuid dateStr body =>
      rw [runOp, propertyCreate_changes]; exact h
  | updateOp property_id body =>
      rw [runOp, propertyUpdate_changes]; exact h
  | getOp property_id => exact h
  | listOp => exact h
  | historyQueryOp now auditUuid q =>
      rw [runOp, propertyHistoryQuery_changes]; exact h
  | regChangeOp now u ps =>
      simp only [runOp, registerPropertyChange]
      by_cases hk : k = u
      · subst hk
        rw [hf] at h
        exact absurd h (by simp)
      · rw [storeGet_storeSet_ne _ _ hk]; exact h
  | regEventOp now u ps => exact h

theorem events_preserved (op : Op) (s : SystemState) (hf : opEventsFresh op s)
    {k : String} {r : PropertyLifecycleEventRecord}
    (h : storeGet k s.events = some r) : storeGet k (runOp op s).events = some r := by
  cases op with
  | createOp now uuid dateStr body =>
      rw [runOp, propertyCreate_events]; exact h
  | updateOp property_id body =>
      rw [runOp, propertyUpdate_events]; exact h
  | getOp property_id => exact h
  | listOp => exact h
  | historyQueryOp now auditUuid q =>
      rw [runOp, propertyHistoryQuery_events]; exact h
  | regChangeOp now u ps => exact h
  | regEventOp now u ps =>
      simp only [runOp, registerLifecycleEvent]
      by_cases hk : k = u
      · subst hk
        rw [hf] at h
        exact absurd h (by simp)
      · rw [storeGet_storeSet_ne _ _ hk]; exact h

theorem audits_preserved (op : Op) (s : SystemState) (hf : opAuditsFresh op s)
    {k : String} {r : PropertyHistoryAuditRecord}
    (h : storeGet k s.audits = some r) : storeGet k (runOp op s).audits = some r := by
  cases op with
  | createOp now uuid dateStr body =>
      rw [runOp, propertyCreate_audits]; exact h
  | updateOp property_id body =>
      rw [runOp, propertyUpdate_audits]; exact h
  | getOp property_id => exact h
  | listOp => exact h
  | historyQueryOp now auditUuid q =>
      rw [runOp]
      rcases propertyHistoryQuery_state now auditUuid q s with hs | ⟨a, hs⟩
      · rw [hs]; exact h
      · rw [hs]
        by_cases hk : k = auditUuid
        · subst hk
          rw [hf] at h
          exact absurd h (by simp)
        · rw [storeGet_storeSet_ne _ _ hk]; exact h
  | regChangeOp now u ps => exact h
  | regEventOp now u ps => exact h

theorem propertiesKey_preserved (op : Op) (s : SystemState) {k : String}
    (h : storeHasKey k s.properties = true) :
    storeHasKey k (runOp op s).properties = true := by
  cases op with
  | createOp now uuid dateStr body =>
      rw [runOp]
      rcases propertyCreate_state now uuid dateStr body s with hs | ⟨p, hs⟩
      · rw [hs]; exact h
      · rw [hs]; exact hasKey_storeSet_of_hasKey _ _ h
  | updateOp property_id body =>
      rw [runOp]
      rcases propertyUpdate_state property_id body s with hs | ⟨p, hs⟩
      · rw [hs]; exact h
      · rw [hs]; exact hasKey_storeSet_of_hasKey _ _ h
  | getOp property_id => exact h
  | listOp => exact h
  | historyQueryOp now auditUuid q =>
      rw [runOp, propertyHistoryQuery_properties]; exact h
  | regChangeOp now u ps => exact h
  | regEventOp now u ps => exact h

theorem propertiesEntry_preserved (op : Op) (s : SystemState) (hf : opPropsFresh op s)
    {k : String} {p : PropertyEntity}
    (h : storeGet k s.properties = some p) :
    storeGet k (runOp op s).properties = some p ∨ ∃ body, op = Op.updateOp k body := by
  cases op with
  | createOp now uuid dateStr body =>
      rw [runOp]
      rcases propertyCreate_state now uuid dateStr body s with hs | ⟨p', hs⟩
      · rw [hs]; exact Or.inl h
      · rw [hs]
        by_cases hk : k = uuid
        · subst hk
          rw [hf] at h
          exact absurd h (by simp)
        · rw [storeGet_storeSet_ne _ _ hk]; exact Or.inl h
  | updateOp property_id body =>
      by_cases hk : k = property_id
      · subst hk; exact Or.inr ⟨body, rfl⟩
      · rw [runOp]
        rcases propertyUpdate_state property_id body s with hs | ⟨p', hs⟩
        · rw [hs]; exact Or.inl h
        · rw [hs]; rw [storeGet_storeSet_ne _ _ hk]; exact Or.inl h
  | getOp property_id => exact Or.inl h
  | listOp => exact Or.inl h
  | historyQueryOp now auditUuid q =>
      rw [runOp, propertyHistoryQuery_properties]; exact Or.inl h
  | regChangeOp now u ps => exact Or.inl h
  | regEventOp now u ps => exact Or.inl h

/-! ## The invariant holds on reachable states -/

theorem propsInv_runOp (op : Op) (s : SystemState) (hinv : PropsInv s) :
    PropsInv (runOp op s) := by
  cases op with
  | createOp now uuid dateStr body =>
      rw [runOp]
      rcases hros : propertyCreate now uuid dateStr body s with ⟨res, s2⟩
      cases res with
      | error e =>
          have : s2 = s := propertyCreate_err_state hros
          simpa [this] using hinv
      | ok p =>
          obtain ⟨h1, h2, h3, hp, hs⟩ := propertyCreate_ok_inv hros
          have hpid : p.property_id = uuid := by rw [hp]; rfl
          have haddr : addrKey p = (lowerStr body.endereco_completo, lowerStr body.bairro,
              body.cep, lowerStr body.cidade, upperStr body.estado) := by
            rw [hp]; rfl
          have hno : ∀ q ∈ storeValues s.properties, q.property_id ≠ uuid →
              addrKey q ≠ addrKey p := by
            intro q hq _
            rw [haddr]
            exact (existsByAddress_eq_false_iff s.properties _ _ _ _ _).mp h2 q hq
          simp only [hs]
          exact ⟨entryCoherent_storeSet hinv.1 hpid,
            nodupKeys_storeSet hinv.2.1,
            addrUnique_storeSet hinv.1 hinv.2.1 hinv.2.2 hno hpid⟩
  | updateOp property_id body =>
      rw [runOp]
      rcases hros : propertyUpdate property_id body s with ⟨res, s2⟩
      cases res with
      | error e =>
          have : s2 = s := propertyUpdate_err_state hros
          simpa [this] using hinv
      | ok p =>
          obtain ⟨h1, existing, hget, h2, hp, hs⟩ := propertyUpdate_ok_inv hros
          have hex : existing.property_id = property_id :=
            hinv.1 (property_id, existing) (storeGet_mem hget)
          have hpid : p.property_id = property_id := by
            rw [hp]
            exact hex
          have haddr : addrKey p = (lowerStr body.endereco_completo, lowerStr body.bairro,
              body.cep, lowerStr body.cidade, upperStr body.estado) := by
            rw [hp]; rfl
          have hno : ∀ q ∈ storeValues s.properties, q.property_id ≠ property_id →
              addrKey q ≠ addrKey p := by
            intro q hq hqid
            rw [haddr]
            exact (updateDupExists_eq_false_iff property_id body s.properties).mp h2 q hq hqid
          simp only [hs]
          exact ⟨entryCoherent_storeSet hinv.1 hpid,
            nodupKeys_storeSet hinv.2.1,
            addrUnique_storeSet hinv.1 hinv.2.1 hinv.2.2 hno hpid⟩
  | getOp property_id => exact hinv
  | listOp => exact hinv
  | historyQueryOp now auditUuid q =>
      rw [runOp]
      rcases propertyHistoryQuery_state now auditUuid q s with hs | ⟨a, hs⟩
      · rw [hs]; exact hinv
      · rw [hs]; exact hinv
  | regChangeOp now u ps => exact hinv
  | regEventOp now u ps => exact hinv

theorem propsInv_initial : PropsInv initialState :=
  ⟨fun e he => absurd he (List.not_mem_nil e), List.nodup_nil, List.Pairwise.nil⟩

theorem reachable_propsInv {s : SystemState} (h : Reachable s) : PropsInv s := by
  induction h with
  | init => exact propsInv_initial
  | step op s hs ih => exact propsInv_runOp op s ih

/-! ## Sorted-list lemmas for the summary fields -/

theorem sorted_head_min {l : List PropertyHistoryChangeRecord}
    (hs : List.Sorted changeAsc l) {h : PropertyHistoryChangeRecord}
    (hh : l.head? = some h) {c : PropertyHistoryChangeRecord} (hc : c ∈ l) :
    h.change_date ≤ c.change_date := by
  cases l with
  | nil => simp at hh
  | cons a t =>
      simp only [List.head?_cons, Option.some.injEq] at hh
      subst hh
      rcases List.mem_cons.mp hc with h1 | h1
      · rw [h1]
      · exact List.rel_of_sorted_cons hs c h1

theorem sorted_last_max {l : List PropertyHistoryChangeRecord}
    (hs : List.Sorted changeAsc l) {m : PropertyHistoryChangeRecord}
    (hm : l.getLast? = some m) {c : PropertyHistoryChangeRecord} (hc : c ∈ l) :
    c.change_date ≤ m.change_date := by
  induction l with
  | nil => simp at hm
  | cons a t ih =>
      cases t with
      | nil =>
          simp only [List.getLast?_singleton, Option.some.injEq] at hm
          subst hm
          rcases List.mem_cons.mp hc with h1 | h1
          · rw [h1]
          · simp at h1
      | cons b t' =>
          rw [List.getLast?_cons_cons] at hm
          have hmm : m ∈ b :: t' := by
            obtain ⟨ys, hys⟩ := List.getLast?_eq_some_iff.mp hm
            rw [hys]
            exact List.mem_append_right ys (List.mem_cons_self m [])
          rcases List.mem_cons.mp hc with h1 | h1
          · rw [h1]
            exact List.rel_of_sorted_cons hs m hmm
          · exact ih (List.Sorted.of_cons hs) hm h1

/-! ## Membership through the query filters -/

theorem mem_applyStartDateFilter {A : Type} {dateOf : A -> Int} {sd : Option Int}
    {l : List A} {x : A} (h : x ∈ applyStartDateFilter dateOf sd l) :
    x ∈ l ∧ ∀ d, sd = some d → d ≤ dateOf x := by
  cases sd with
  | none => exact ⟨h, by intro d hd; cases hd⟩
  | some d =>
      simp only [applyStartDateFilter, List.mem_filter, decide_eq_true_eq] at h
      exact ⟨h.1, by intro d' hd'; cases hd'; exact h.2⟩

theorem mem_applyEndDateFilter {A : Type} {dateOf : A -> Int} {ed : Option Int}
    {l : List A} {x : A} (h : x ∈ applyEndDateFilter dateOf ed l) :
    x ∈ l ∧ ∀ d, ed = some d → dateOf x ≤ endOfDayMillis d := by
  cases ed with
  | none => exact ⟨h, by intro d hd; cases hd⟩
  | some d =>
      simp only [applyEndDateFilter, List.mem_filter, decide_eq_true_eq] at h
      exact ⟨h.1, by intro d' hd'; cases hd'; exact h.2⟩

theorem mem_applyChangeTypeFilter {ct : Option String}
    {l : List PropertyHistoryChangeRecord} {c : PropertyHistoryChangeRecord}
    (h : c ∈ applyChangeTypeFilter ct l) :
    c ∈ l ∧ ∀ t, ct = some t → t ≠ TODOS → c.change_type = t := by
  cases ct with
  | none => exact ⟨h, by intro t ht; cases ht⟩
  | some t =>
      simp only [applyChangeTypeFilter] at h
      by_cases htd : t = TODOS
      · rw [if_pos htd] at h
        refine ⟨h, ?_⟩
        intro t' ht' hne
        cases ht'
        exact absurd htd hne
      · rw [if_neg htd] at h
        simp only [List.mem_filter, decide_eq_true_eq] at h
        exact ⟨h.1, by intro t' ht' _; cases ht'; exact h.2⟩

theorem mem_applyUserFilter {ru : Option String}
    {l : List PropertyHistoryChangeRecord} {c : PropertyHistoryChangeRecord}
    (h : c ∈ applyUserFilter ru l) :
    c ∈ l ∧ ∀ u, ru = some u → lowerStr c.user_responsible = lowerStr u := by
  cases ru with
  | none => exact ⟨h, by intro u hu; cases hu⟩
  | some u =>
      simp only [applyUserFilter, List.mem_filter, decide_eq_true_eq] at h
      exact ⟨h.1, by intro u' hu'; cases hu'; exact h.2⟩

theorem mem_getChangesByPropertyId {changes : Store PropertyHistoryChangeRecord}
    {property_id : String} {c : PropertyHistoryChangeRecord}
    (h : c ∈ getChangesByPropertyId changes property_id) :
    c ∈ storeValues changes ∧ c.property_id = property_id := by
  unfold getChangesByPropertyId at h
  rw [List.mem_insertionSort] at h
  simpa [List.mem_filter] using h

theorem mem_getEventsByPropertyId {events : Store PropertyLifecycleEventRecord}
    {property_id : String} {e : PropertyLifecycleEventRecord}
    (h : e ∈ getEventsByPropertyId events property_id) :
    e ∈ storeValues events ∧ e.property_id = property_id := by
  unfold getEventsByPropertyId at h
  rw [List.mem_insertionSort] at h
  simpa [List.mem_filter] using h

theorem mem_filterChanges {q : HistoryQueryParams}
    {l : List PropertyHistoryChangeRecord} {c : PropertyHistoryChangeRecord}
    (h : c ∈ filterChanges q l) :
    c ∈ l ∧
    (∀ d, q.start_date = some d → d ≤ c.change_date) ∧
    (∀ d, q.end_date = some d → c.change_date ≤ endOfDayMillis d) ∧
    (∀ t, q.change_type = some t → t ≠ TODOS → c.change_type = t) ∧
    (∀ u, q.responsible_user = some u → lowerStr c.user_responsible = lowerStr u) := by
  unfold filterChanges at h
  obtain ⟨h4, hu⟩ := mem_applyUserFilter h
  obtain ⟨h3, ht⟩ := mem_applyChangeTypeFilter h4
  obtain ⟨h2, he⟩ := mem_applyEndDateFilter h3
  obtain ⟨h1, hsd⟩ := mem_applyStartDateFilter h2
  exact ⟨h1, hsd, he, ht, hu⟩

theorem mem_filterEvents {q : HistoryQueryParams}
    {l : List PropertyLifecycleEventRecord} {e : PropertyLifecycleEventRecord}
    (h : e ∈ filterEvents q l) :
    e ∈ l ∧
    (∀ d, q.start_date = some d → d ≤ e.event_date) ∧
    (∀ d, q.end_date = some d → e.event_date ≤ endOfDayMillis d) := by
  unfold filterEvents at h
  obtain ⟨h2, he⟩ := mem_applyEndDateFilter h
  obtain ⟨h1, hsd⟩ := mem_applyStartDateFilter h2
  exact ⟨h1, hsd, he⟩

/-! ## Claims -/

/-- C7: `propertyCreate` checks its rules in the order validation → duplicate
address → record limit: it throws `VALIDATION_ERROR` (400) when the body fails
the create schema, otherwise `DUPLICATE_ADDRESS` (409) when the address
combination already exists, otherwise `MAX_RECORDS_REACHED` (507) when the
store already holds at least `MAX_RECORDS` = 10000 properties; in every one of
these error cases the returned state is the unchanged input state (no property
is added). -/
theorem claim_C7 (now : Int) (uuid dateStr : String) (body : CreateBody) (s : SystemState) :
    (createValid body = false →
      propertyCreate now uuid dateStr body s = (Except.error validationError, s) ∧
      validationError.code = "VALIDATION_ERROR" ∧ validationError.httpStatus = 400) ∧
    (createValid body = true →
      existsByAddress s.properties body.endereco_completo body.bairro body.cep
        body.cidade body.estado = true →
      propertyCreate now uuid dateStr body s = (Except.error createDuplicateError, s) ∧
      createDuplicateError.code = "DUPLICATE_ADDRESS" ∧
      createDuplicateError.httpStatus = 409) ∧
    (createValid body = true →
      existsByAddress s.properties body.endereco_completo body.bairro body.cep
        body.cidade body.estado = false →
      MAX_RECORDS ≤ s.properties.length →
      propertyCreate now uuid dateStr body s = (Except.error maxRecordsError, s) ∧
      maxRecordsError.code = "MAX_RECORDS_REACHED" ∧ maxRecordsError.httpStatus = 507) :=
  ⟨fun h1 => ⟨propertyCreate_invalid s h1, rfl, rfl⟩,
   fun h1 h2 => ⟨propertyCreate_dup s h1 h2, rfl, rfl⟩,
   fun h1 h2 h3 => ⟨propertyCreate_max s h1 h2 h3, rfl, rfl⟩⟩

/-- Witness for C7: an invalid body (malformed CEP) is rejected with
`VALIDATION_ERROR` and the empty store is left unchanged. -/
theorem claim_C7_witness :
    propertyCreate t0 pidA "20250128" badBody initialState =
      (Except.error validationError, initialState) :=
  ((claim_C7 t0 pidA "20250128" badBody initialState).1 (by decide)).1

/-- C10: `propertyUpdate` never changes the identity and registration metadata
of a property: on success it stores and returns `applyUpdate existing body`,
which keeps `property_id`, `codigo_propriedade`, `data_cadastro` and
`usuario_cadastro` of the existing entity, and takes exactly the fifteen
`updateSchema` fields from the request body. -/
theorem claim_C10 (property_id : String) (body : UpdateBody) (s : SystemState)
    (existing : PropertyEntity)
    (hget : storeGet property_id s.properties = some existing)
    (hv : updateValid body = true)
    (hnd : updateDupExists property_id body s.properties = false) :
    propertyUpdate property_id body s =
      (Except.ok (applyUpdate existing body),
       { s with properties := storeSet property_id (applyUpdate existing body) s.properties }) ∧
    (applyUpdate existing body).property_id = existing.property_id ∧
    (applyUpdate existing body).codigo_propriedade = existing.codigo_propriedade ∧
    (applyUpdate existing body).data_cadastro = existing.data_cadastro ∧
    (applyUpdate existing body).usuario_cadastro = existing.usuario_cadastro ∧
    (applyUpdate existing body).tipo_propriedade = body.tipo_propriedade ∧
    (applyUpdate existing body).endereco_completo = body.endereco_completo ∧
    (applyUpdate existing body).cep = body.cep ∧
    (applyUpdate existing body).bairro = body.bairro ∧
    (applyUpdate existing body).cidade = body.cidade ∧
    (applyUpdate existing body).estado = body.estado ∧
    (applyUpdate existing body).area_total = body.area_total ∧
    (applyUpdate existing body).quartos = body.quartos ∧
    (applyUpdate existing body).banheiros = body.banheiros ∧
    (applyUpdate existing body).vagas_garagem = body.vagas_garagem ∧
    (applyUpdate existing body).valor_aluguel = body.valor_aluguel ∧
    (applyUpdate existing body).valor_condominio = body.valor_condominio ∧
    (applyUpdate existing body).valor_iptu = body.valor_iptu ∧
    (applyUpdate existing body).descricao = body.descricao ∧
    (applyUpdate existing body).status = body.status :=
  ⟨propertyUpdate_ok hget hv hnd, rfl, rfl, rfl, rfl, rfl, rfl, rfl, rfl, rfl, rfl, rfl,
   rfl, rfl, rfl, rfl, rfl, rfl, rfl, rfl⟩

/-- Witness for C10: updating the sample property succeeds and returns the
merged entity. -/
theorem claim_C10_witness :
    (propertyUpdate pidA updA s1).1 = Except.ok (applyUpdate propA updA) := by
  have h := (claim_C10 pidA updA s1 propA (by decide) (by decide) (by decide)).1
  rw [h]

/-- C1: on every reachable state, a successful `propertyCreate` or
`propertyUpdate` leaves the property store with no two distinct properties
sharing the normalized address combination (address, neighborhood, city
lower-cased, state upper-cased, CEP exact); `propertyCreate` fails with
`DUPLICATE_ADDRESS` (409) when the new address matches an existing property,
and `propertyUpdate` fails with `DUPLICATE_ADDRESS` (409) when the new
address matches any property other than the one being updated. -/
theorem claim_C1 (s : SystemState) (hreach : Reachable s) :
    (∀ now uuid dateStr body p s',
        propertyCreate now uuid dateStr body s = (Except.ok p, s') →
        AddrUnique s'.properties) ∧
    (∀ property_id body p s',
        propertyUpdate property_id body s = (Except.ok p, s') →
        AddrUnique s'.properties) ∧
    (∀ (now : Int) (uuid dateStr : String) (body : CreateBody),
        createValid body = true →
        existsByAddress s.properties body.endereco_completo body.bairro body.cep
          body.cidade body.estado = true →
        (propertyCreate now uuid dateStr body s).1 = Except.error createDuplicateError ∧
        createDuplicateError.code = "DUPLICATE_ADDRESS" ∧
        createDuplicateError.httpStatus = 409) ∧
    (∀ (property_id : String) (body : UpdateBody) existing,
        updateValid body = true →
        storeGet property_id s.properties = some existing →
        updateDupExists property_id body s.properties = true →
        (propertyUpdate property_id body s).1 = Except.error updateDuplicateError ∧
        updateDuplicateError.code = "DUPLICATE_ADDRESS" ∧
        updateDuplicateError.httpStatus = 409) := by
  refine ⟨?_, ?_, ?_, ?_⟩
  · intro now uuid dateStr body p s' h
    have hinv := propsInv_runOp (Op.createOp now uuid dateStr body) s (reachable_propsInv hreach)
    simp only [runOp, h] at hinv
    exact hinv.2.2
  · intro property_id body p s' h
    have hinv := propsInv_runOp (Op.updateOp property_id body) s (reachable_propsInv hreach)
    simp only [runOp, h] at hinv
    exact hinv.2.2
  · intro now uuid dateStr body h1 h2
    refine ⟨?_, rfl, rfl⟩
    rw [propertyCreate_dup s h1 h2]
  · intro property_id body existing h1 hget h2
    refine ⟨?_, rfl, rfl⟩
    rw [propertyUpdate_dup hget h1 h2]

/-- The one-create state `s1` is reachable. -/
theorem reachable_s1 : Reachable s1 :=
  Reachable.step (Op.createOp t0 pidA "20250128" bodyA) initialState Reachable.init

/-- Witness for C1: creating the same address again on the reachable state
`s1` fails with `DUPLICATE_ADDRESS`. -/
theorem claim_C1_witness :
    (propertyCreate t0 "22222222-2222-2222-2222-222222222222" "20250129" bodyA s1).1 =
      Except.error createDuplicateError :=
  ((claim_C1 s1 reachable_s1).2.2.1 t0 "22222222-2222-2222-2222-222222222222" "20250129"
    bodyA (by decide) (by decide)).1

/-- C8: no property is ever physically removed: along every sequence of
service operations, every `property_id` present in the property store keeps a
record in the store (the `Op` type covers every exported service operation,
and the service and route layers expose no delete operation). -/
theorem claim_C8 (ops : List Op) (s : SystemState) (property_id : String)
    (h : storeHasKey property_id s.properties = true) :
    storeHasKey property_id (runOps ops s).properties = true := by
  induction ops generalizing s with
  | nil => exact h
  | cons op rest ih => exact ih (runOp op s) (propertiesKey_preserved op s h)

/-- Witness for C8: the sample property survives a list, a change
registration and a history query. -/
theorem claim_C8_witness :
    storeHasKey pidA
      (runOps [Op.listOp, Op.regChangeOp 300 "c9" psC,
        Op.historyQueryOp t0 "audit-2" qA] s1).properties = true :=
  claim_C8 _ s1 pidA (by decide)

/-- C2: every change record returned by a successful `propertyHistoryQuery`
belongs to the requested property, satisfies the start/end date bounds (end
bound is the end of the `end_date` day), has the requested change type when
one other than `todos` is given, and matches `responsible_user`
case-insensitively; the date bounds also hold for the returned lifecycle
events; and the summary totals equal the returned list lengths. -/
theorem claim_C2 (now : Int) (auditUuid : String) (q : HistoryQueryParams)
    (s : SystemState) (resp : PropertyHistoryResponse) (s' : SystemState)
    (h : propertyHistoryQuery now auditUuid q s = (Except.ok resp, s')) :
    (∀ c ∈ resp.changes,
        c.property_id = q.property_id ∧
        (∀ d, q.start_date = some d → d ≤ c.change_date) ∧
        (∀ d, q.end_date = some d → c.change_date ≤ endOfDayMillis d) ∧
        (∀ t, q.change_type = some t → t ≠ TODOS → c.change_type = t) ∧
        (∀ u, q.responsible_user = some u →
          lowerStr c.user_responsible = lowerStr u)) ∧
    (∀ e ∈ resp.lifecycle_events,
        e.property_id = q.property_id ∧
        (∀ d, q.start_date = some d → d ≤ e.event_date) ∧
        (∀ d, q.end_date = some d → e.event_date ≤ endOfDayMillis d)) ∧
    resp.summary.total_changes = resp.changes.length ∧
    resp.summary.total_events = resp.lifecycle_events.length := by
  obtain ⟨hv, hex, hch, hev, htc, hte, hfc, hlc, hst⟩ := propertyHistoryQuery_ok_inv h
  refine ⟨?_, ?_, htc, hte⟩
  · intro c hc
    rw [hch] at hc
    obtain ⟨hmem, hsd, hed, hct, hru⟩ := mem_filterChanges hc
    exact ⟨(mem_getChangesByPropertyId hmem).2, hsd, hed, hct, hru⟩
  · intro e he
    rw [hev] at he
    obtain ⟨hmem, hsd, hed⟩ := mem_filterEvents he
    exact ⟨(mem_getEventsByPropertyId hmem).2, hsd, hed⟩

/-- Witness for C2: the fully filtered sample query reports totals that match
its returned lists. -/
theorem claim_C2_witness :
    respA.summary.total_changes = respA.changes.length ∧
    respA.summary.total_events = respA.lifecycle_events.length := by
  have h := claim_C2 t0 "audit-1" qA s3 respA histResA.2 rfl
  exact ⟨h.2.2.1, h.2.2.2⟩

/-- C3: each successful history query appends exactly one audit record, keyed
by the generated audit UUID, that logs the stubbed `"system"` user, the
validated query parameters as applied filters, `records_returned` equal to
the number of returned changes plus lifecycle events, `exported = false` and
`export_format = null`; when the audit UUID is fresh the audit store grows by
exactly that one appended entry. -/
theorem claim_C3 (now : Int) (auditUuid : String) (q : HistoryQueryParams)
    (s : SystemState) (resp : PropertyHistoryResponse) (s' : SystemState)
    (h : propertyHistoryQuery now auditUuid q s = (Except.ok resp, s')) :
    s' = { s with audits := storeSet auditUuid (mkAuditRecord now auditUuid q (resp.changes.length + resp.lifecycle_events.length)) s.audits } ∧
    (mkAuditRecord now auditUuid q (resp.changes.length + resp.lifecycle_events.length)).audit_id = auditUuid ∧
    (mkAuditRecord now auditUuid q (resp.changes.length + resp.lifecycle_events.length)).user_id = "system" ∧
    (mkAuditRecord now auditUuid q (resp.changes.length + resp.lifecycle_events.length)).consulted_property_id = q.property_id ∧
    (mkAuditRecord now auditUuid q (resp.changes.length + resp.lifecycle_events.length)).applied_filters = q ∧
    (mkAuditRecord now auditUuid q (resp.changes.length + resp.lifecycle_events.length)).records_returned = resp.changes.length + resp.lifecycle_events.length ∧
    (mkAuditRecord now auditUuid q (resp.changes.length + resp.lifecycle_events.length)).exported = false ∧
    (mkAuditRecord now auditUuid q (resp.changes.length + resp.lifecycle_events.length)).export_format = none ∧
    (storeGet auditUuid s.audits = none →
      s'.audits = s.audits ++
        [(auditUuid, mkAuditRecord now auditUuid q (resp.changes.length + resp.lifecycle_events.length))]) := by
  obtain ⟨hv, hex, hch, hev, htc, hte, hfc, hlc, hst⟩ := propertyHistoryQuery_ok_inv h
  refine ⟨hst, rfl, rfl, rfl, rfl, rfl, rfl, rfl, ?_⟩
  intro hfree
  rw [hst]
  exact storeSet_of_get_none _ hfree

/-- Witness for C3: the sample query appends its single audit record to the
empty audit store. -/
theorem claim_C3_witness :
    histResA.2.audits = s3.audits ++
      [("audit-1", mkAuditRecord t0 "audit-1" qA (respA.changes.length + respA.lifecycle_events.length))] := by
  have h := claim_C3 t0 "audit-1" qA s3 respA histResA.2 rfl
  exact h.2.2.2.2.2.2.2.2 (by decide)

/-- C9: `summary.first_change_date` and `summary.last_change_date` of a
successful history query are the earliest and latest `change_date` over ALL
change records of the queried property, ignoring the query filters, and are
`null` exactly when the property has no change records at all. -/
theorem claim_C9 (now : Int) (auditUuid : String) (q : HistoryQueryParams)
    (s : SystemState) (resp : PropertyHistoryResponse) (s' : SystemState)
    (h : propertyHistoryQuery now auditUuid q s = (Except.ok resp, s')) :
    (resp.summary.first_change_date = none ↔
      getChangesByPropertyId s.changes q.property_id = []) ∧
    (resp.summary.last_change_date = none ↔
      getChangesByPropertyId s.changes q.property_id = []) ∧
    (∀ d, resp.summary.first_change_date = some d →
      (∃ c ∈ getChangesByPropertyId s.changes q.property_id, c.change_date = d) ∧
      ∀ c ∈ getChangesByPropertyId s.changes q.property_id, d ≤ c.change_date) ∧
    (∀ d, resp.summary.last_change_date = some d →
      (∃ c ∈ getChangesByPropertyId s.changes q.property_id, c.change_date = d) ∧
      ∀ c ∈ getChangesByPropertyId s.changes q.property_id, c.change_date ≤ d) := by
  obtain ⟨hv, hex, hch, hev, htc, hte, hfc, hlc, hst⟩ := propertyHistoryQuery_ok_inv h
  have hperm := List.perm_insertionSort changeAsc (getChangesByPropertyId s.changes q.property_id)
  have hsort := List.sorted_insertionSort changeAsc (getChangesByPropertyId s.changes q.property_id)
  have hnil : List.insertionSort changeAsc (getChangesByPropertyId s.changes q.property_id) = [] ↔
      getChangesByPropertyId s.changes q.property_id = [] := by
    constructor
    · intro hs
      have hl := hperm.length_eq
      rw [hs] at hl
      exact List.length_eq_zero.mp hl.symm
    · intro ha
      rw [ha]
      rfl
  refine ⟨?_, ?_, ?_, ?_⟩
  · rw [hfc, Option.map_eq_none', List.head?_eq_none_iff, hnil]
  · rw [hlc, Option.map_eq_none', List.getLast?_eq_none_iff, hnil]
  · intro d hd
    rw [hfc] at hd
    obtain ⟨hc, hh, hfd⟩ := Option.map_eq_some'.mp hd
    have hmem : hc ∈ List.insertionSort changeAsc (getChangesByPropertyId s.changes q.property_id) := by
      cases hsl : List.insertionSort changeAsc (getChangesByPropertyId s.changes q.property_id) with
      | nil => rw [hsl] at hh; simp at hh
      | cons a t =>
          rw [hsl] at hh
          simp only [List.head?_cons, Option.some.injEq] at hh
          rw [← hh]
          exact List.mem_cons_self _ _
    refine ⟨⟨hc, (List.mem_insertionSort changeAsc).mp hmem, hfd⟩, ?_⟩
    intro c hcall
    rw [← hfd]
    exact sorted_head_min hsort hh ((List.mem_insertionSort changeAsc).mpr hcall)
  · intro d hd
    rw [hlc] at hd
    obtain ⟨mc, hm, hfd⟩ := Option.map_eq_some'.mp hd
    have hmem : mc ∈ List.insertionSort changeAsc (getChangesByPropertyId s.changes q.property_id) := by
      obtain ⟨ys, hys⟩ := List.getLast?_eq_some_iff.mp hm
      rw [hys]
      exact List.mem_append_right ys (List.mem_cons_self mc [])
    refine ⟨⟨mc, (List.mem_insertionSort changeAsc).mp hmem, hfd⟩, ?_⟩
    intro c hcall
    rw [← hfd]
    exact sorted_last_max hsort hm ((List.mem_insertionSort changeAsc).mpr hcall)

/-- Witness for C9: on the sample query (whose filters keep only one of two
changes), the first-change summary field is non-null since the property has
change records. -/
theorem claim_C9_witness :
    respA.summary.first_change_date = none ↔
      getChangesByPropertyId s3.changes qA.property_id = [] :=
  (claim_C9 t0 "audit-1" qA s3 respA histResA.2 rfl).1

/-- C4: the history log is append-only: every change record and lifecycle
event present before any operation is still present and unmodified after it
(given the freshness of the generated UUIDs the claim assumes), and
`registerPropertyChange` / `registerLifecycleEvent` each append exactly one
new record keyed by the freshly generated UUID; no operation updates or
deletes an existing history record. -/
theorem claim_C4 (s : SystemState) :
    (∀ op, opChangesFresh op s → opEventsFresh op s →
        (∀ k r, storeGet k s.changes = some r → storeGet k (runOp op s).changes = some r) ∧
        (∀ k r, storeGet k s.events = some r → storeGet k (runOp op s).events = some r)) ∧
    (∀ (now : Int) (uuid : String) (ps : ChangeParams),
        storeGet uuid s.changes = none →
        (runOp (Op.regChangeOp now uuid ps) s).changes =
          s.changes ++ [(uuid, mkChangeRecord now uuid ps)] ∧
        (mkChangeRecord now uuid ps).change_id = uuid ∧
        (runOp (Op.regChangeOp now uuid ps) s).events = s.events) ∧
    (∀ (now : Int) (uuid : String) (ps : EventParams),
        storeGet uuid s.events = none →
        (runOp (Op.regEventOp now uuid ps) s).events =
          s.events ++ [(uuid, mkLifecycleEvent now uuid ps)] ∧
        (mkLifecycleEvent now uuid ps).event_id = uuid ∧
        (runOp (Op.regEventOp now uuid ps) s).changes = s.changes) := by
  refine ⟨?_, ?_, ?_⟩
  · intro op hc he
    exact ⟨fun k r h => changes_preserved op s hc h,
           fun k r h => events_preserved op s he h⟩
  · intro now uuid ps hfree
    refine ⟨?_, rfl, rfl⟩
    simp only [runOp, registerPropertyChange]
    exact storeSet_of_get_none _ hfree
  · intro now uuid ps hfree
    refine ⟨?_, rfl, rfl⟩
    simp only [runOp, registerLifecycleEvent]
    exact storeSet_of_get_none _ hfree

/-- Witness for C4: registering a change under a fresh UUID appends exactly
that one record to the sample change store. -/
theorem claim_C4_witness :
    (runOp (Op.regChangeOp 300 "c3" psC) s3).changes =
      s3.changes ++ [("c3", mkChangeRecord 300 "c3" psC)] :=
  ((claim_C4 s3).2.1 300 "c3" psC (by decide)).1

/-- Counterexample to C5 as stated: `propertyUpdate` does mutate the stored
Property entity: after updating the sample property, the store no longer
holds the originally created entity under its id. -/
theorem claim_C5_counterexample :
    storeGet pidA s1.properties = some propA ∧
    storeGet pidA ((propertyUpdate pidA updA s1).2).properties ≠ some propA :=
  ⟨by decide, by decide⟩

/-- C5 (amended): change records, lifecycle events and audit records are
created once and never mutated or deleted under every service operation (with
fresh generated UUIDs), and Property records are never deleted; but a stored
Property entity IS replaced by `propertyUpdate` on its id, so "never mutated"
holds only for the three history/audit kinds. -/
theorem claim_C5_amended (op : Op) (s : SystemState) (hf : opUuidFresh op s) :
    (∀ k r, storeGet k s.changes = some r → storeGet k (runOp op s).changes = some r) ∧
    (∀ k r, storeGet k s.events = some r → storeGet k (runOp op s).events = some r) ∧
    (∀ k r, storeGet k s.audits = some r → storeGet k (runOp op s).audits = some r) ∧
    (∀ k p, storeGet k s.properties = some p →
        storeGet k (runOp op s).properties = some p ∨ ∃ body, op = Op.updateOp k body) :=
  ⟨fun _ _ h => changes_preserved op s hf.1 h,
   fun _ _ h => events_preserved op s hf.2.1 h,
   fun _ _ h => audits_preserved op s hf.2.2.1 h,
   fun _ _ h => propertiesEntry_preserved op s hf.2.2.2 h⟩

/-- Witness for C5 (amended): an existing change record survives a fresh
change registration unmodified. -/
theorem claim_C5_witness :
    storeGet "c1" (runOp (Op.regChangeOp 300 "c3" psC) s3).changes = some chg1 :=
  (claim_C5_amended (Op.regChangeOp 300 "c3" psC) s3
    ⟨(by decide : storeGet "c3" s3.changes = none), trivial, trivial, trivial⟩).1
    "c1" chg1 (by decide)

set_option maxRecDepth 8000 in
/-- `String(n).padStart(3, '0')` has exactly three characters for n ≤ 999. -/
theorem padStart3_length_of_lt_1000 : ∀ n, n < 1000 → (padStart3 n).length = 3 := by
  decide

/-- Counterexample to C6 as stated: starting from a daily sequential of 999
(the state after 999 same-date creations), the next `propertyCreate` assigns
`PROP-20250128-1000`, whose sequence suffix has FOUR digits, not the asserted
three-digit zero-padded `NNN`. -/
theorem claim_C6_counterexample :
    ((propertyCreate t0 pidA "20250128" bodyA s999).1).toOption = some p1000 ∧
    p1000.codigo_propriedade = "PROP-20250128-1000" ∧
    threeDigitCodeFormat "20250128" p1000.codigo_propriedade = false :=
  ⟨by decide, by decide, by decide⟩

/-- C6 (amended): every property created by `propertyCreate` gets
`codigo_propriedade` of the form `PROP-` ++ dateStr ++ `-` ++ NNN where
`dateStr` models the creation date (`YYYYMMDD` of the same `new Date()`) and
NNN is the per-date sequence number zero-padded to AT LEAST three digits: it
is `001` when the date has no sequential record yet, the previous sequential
plus one otherwise, the store records the new sequential, and the suffix has
exactly three digits while the sequence number is at most 999. -/
theorem claim_C6_amended (now : Int) (uuid dateStr : String) (body : CreateBody)
    (s : SystemState) (p : PropertyEntity) (s' : SystemState)
    (h : propertyCreate now uuid dateStr body s = (Except.ok p, s')) :
    p.codigo_propriedade =
      "PROP-" ++ dateStr ++ "-" ++ padStart3 (nextSeqFor dateStr s.sequentials) ∧
    (storeGet dateStr s.sequentials = none → nextSeqFor dateStr s.sequentials = 1) ∧
    (∀ r, storeGet dateStr s.sequentials = some r →
      nextSeqFor dateStr s.sequentials = r.ultimo_sequencial + 1) ∧
    (∃ r, storeGet dateStr s'.sequentials = some r ∧
      r.ultimo_sequencial = nextSeqFor dateStr s.sequentials) ∧
    (nextSeqFor dateStr s.sequentials ≤ 999 →
      (padStart3 (nextSeqFor dateStr s.sequentials)).length = 3) := by
  obtain ⟨h1, h2, h3, hp, hs⟩ := propertyCreate_ok_inv h
  refine ⟨by rw [hp]; rfl, ?_, ?_, ?_, ?_⟩
  · intro hn
    unfold nextSeqFor
    rw [hn]
  · intro r hr
    unfold nextSeqFor
    rw [hr]
  · rw [hs]
    exact getNextSequential_get dateStr now s.sequentials
  · intro hle
    exact padStart3_length_of_lt_1000 _ (Nat.lt_succ_of_le hle)

/-- Witness for C6 (amended): the first creation of the date gets suffix
`001`. -/
theorem claim_C6_witness :
    propA.codigo_propriedade = "PROP-20250128-001" := by
  have h := claim_C6_amended t0 pidA "20250128" bodyA initialState propA s1 rfl
  rw [h.1]
  decide

end PropertyApp
